import Mathlib

/-!
Verification of the car-recording system (recording codec, frame store,
recorder, players, native slot/registry managers) against its specification.

The TypeScript sources are shallowly embedded: JavaScript numbers are
modelled as exact rationals (ℚ), the integers produced by Math.floor /
Math.round as ℤ, and the DataView integer conversions (setInt8 / setInt16 /
setInt32 / setUint32 and the matching getters) as explicit wrap-around
arithmetic on ℤ.  A 32-bit float store (DataView.setFloat32) rounds its
argument to the nearest binary32 value; the codecs below therefore take the
float conversion as an explicit parameter f32 : ℚ → ℚ, and theorems about
float-exactness assume f32 is the identity on the values at hand (which is
exactly what binary32-representability of those values means).
-/

namespace CarRec

/-- Wrap an integer into the signed w-bit range, as DataView.setIntN /
getIntN do (two's-complement truncation). -/
def wrapInt (w : ℕ) (v : ℤ) : ℤ :=
  (v + 2 ^ (w - 1)) % 2 ^ w - 2 ^ (w - 1)

/-- JavaScript Math.floor on a number, yielding an integer. -/
def jsFloor (q : ℚ) : ℤ := ⌊q⌋

/-- JavaScript Math.round: floor of the value plus one half (rounds half
towards positive infinity, also for negative arguments). -/
def jsRound (q : ℚ) : ℤ := ⌊q + 1/2⌋

/-- ECMAScript truncation towards zero (the first step of ToInt32 / ToUint32
and of the DataView integer conversions). -/
def jsTrunc (q : ℚ) : ℤ := if q < 0 then -⌊-q⌋ else ⌊q⌋

/-- JavaScript Math.abs. -/
def jsAbs (q : ℚ) : ℚ := if q < 0 then -q else q

/-- DataView.setIntN conversion of a JavaScript number: truncate towards
zero, then two's-complement wrap into w bits. -/
def toIntW (w : ℕ) (q : ℚ) : ℤ := wrapInt w (jsTrunc q)

/-- DataView.setUintN conversion of a JavaScript number: truncate towards
zero, then reduce modulo 2^w. -/
def toUintW (w : ℕ) (q : ℚ) : ℤ := jsTrunc q % 2 ^ w

/-! ## Profile A: CarRecording.ts (redux-car-recording[mem]) -/

/-- Vector3 from CarRecording.ts: three JavaScript numbers. -/
structure Vector3 where
  x : ℚ
  y : ℚ
  z : ℚ
deriving DecidableEq

/-- RotationMatrix from CarRecording.ts: right and up vectors. -/
structure RotationMatrix where
  right : Vector3
  up : Vector3
deriving DecidableEq

/-- VehicleControls from CarRecording.ts. -/
structure VehicleControls where
  steeringAngle : ℚ
  accelerator : ℚ
  brake : ℚ
  handBrake : ℚ
  horn : ℚ
deriving DecidableEq

/-- CarRecordingFrame from CarRecording.ts (Profile A, 48-byte frames). -/
structure CarRecordingFrame where
  timestamp : ℚ
  rotation : RotationMatrix
  position : Vector3
  movementSpeed : Vector3
  turnSpeed : Vector3
  controls : VehicleControls
deriving DecidableEq

/-- The scalar contents of one serialized 48-byte Profile A frame: the
integer fields exactly as the DataView setters store them, and the three
binary32 position floats (held as the rationals they denote). -/
structure StoredFrameA where
  timestamp : ℤ
  rightX : ℤ
  rightY : ℤ
  rightZ : ℤ
  upX : ℤ
  upY : ℤ
  upZ : ℤ
  posX : ℚ
  posY : ℚ
  posZ : ℚ
  msX : ℤ
  msY : ℤ
  msZ : ℤ
  tsX : ℤ
  tsY : ℤ
  tsZ : ℤ
  steering : ℤ
  accel : ℤ
  brake : ℤ
  handBrake : ℤ
  horn : ℤ
deriving DecidableEq

namespace CarRecordingFrame

/-- CarRecordingFrame.compressRotation: Math.max(-32768, Math.min(32767,
Math.round(value * 30000))). -/
def compressRotation (value : ℚ) : ℤ :=
  max (-32768) (min 32767 (jsRound (value * 30000)))

/-- CarRecordingFrame.decompressRotation: value / 30000.0. -/
def decompressRotation (value : ℤ) : ℚ := (value : ℚ) / 30000

/-- CarRecordingFrame.compressSpeed: Math.max(-32768, Math.min(32767,
Math.round(value * 10000))). -/
def compressSpeed (value : ℚ) : ℤ :=
  max (-32768) (min 32767 (jsRound (value * 10000)))

/-- CarRecordingFrame.decompressSpeed: value / 10000.0. -/
def decompressSpeed (value : ℤ) : ℚ := (value : ℚ) / 10000

/-- CarRecordingFrame.toBuffer (Profile A): the scalar contents of the
48-byte buffer.  Rotation and speed components go through compressRotation /
compressSpeed and are stored with setInt16; the controls are scaled with
Math.round and stored with setInt8 (the raw handBrake / horn bytes with
setInt8 as well); the position floats are stored with setFloat32, modelled
by the explicit binary32 rounding f32; the timestamp is stored with
setInt32. -/
def toBuffer (f32 : ℚ → ℚ) (f : CarRecordingFrame) : StoredFrameA where
  timestamp := toIntW 32 f.timestamp
  rightX := wrapInt 16 (compressRotation f.rotation.right.x)
  rightY := wrapInt 16 (compressRotation f.rotation.right.y)
  rightZ := wrapInt 16 (compressRotation f.rotation.right.z)
  upX := wrapInt 16 (compressRotation f.rotation.up.x)
  upY := wrapInt 16 (compressRotation f.rotation.up.y)
  upZ := wrapInt 16 (compressRotation f.rotation.up.z)
  posX := f32 f.position.x
  posY := f32 f.position.y
  posZ := f32 f.position.z
  msX := wrapInt 16 (compressSpeed f.movementSpeed.x)
  msY := wrapInt 16 (compressSpeed f.movementSpeed.y)
  msZ := wrapInt 16 (compressSpeed f.movementSpeed.z)
  tsX := wrapInt 16 (compressSpeed f.turnSpeed.x)
  tsY := wrapInt 16 (compressSpeed f.turnSpeed.y)
  tsZ := wrapInt 16 (compressSpeed f.turnSpeed.z)
  steering := wrapInt 8 (jsRound (f.controls.steeringAngle * 20))
  accel := wrapInt 8 (jsRound (f.controls.accelerator * 100))
  brake := wrapInt 8 (jsRound (f.controls.brake * 100))
  handBrake := toIntW 8 f.controls.handBrake
  horn := toIntW 8 f.controls.horn

/-- CarRecordingFrame.fromBuffer (Profile A): reads the stored scalars back;
rotation and speed components are divided by their scales, steering /
accelerator / brake by 20 / 100 / 100, the handBrake and horn bytes are read
with getUint8 (hence reduced modulo 256), and the timestamp with getInt32. -/
def fromBuffer (s : StoredFrameA) : CarRecordingFrame where
  timestamp := (s.timestamp : ℚ)
  rotation :=
    { right := ⟨decompressRotation s.rightX, decompressRotation s.rightY,
        decompressRotation s.rightZ⟩
      up := ⟨decompressRotation s.upX, decompressRotation s.upY,
        decompressRotation s.upZ⟩ }
  position := ⟨s.posX, s.posY, s.posZ⟩
  movementSpeed := ⟨decompressSpeed s.msX, decompressSpeed s.msY,
    decompressSpeed s.msZ⟩
  turnSpeed := ⟨decompressSpeed s.tsX, decompressSpeed s.tsY,
    decompressSpeed s.tsZ⟩
  controls :=
    { steeringAngle := (s.steering : ℚ) / 20
      accelerator := (s.accel : ℚ) / 100
      brake := (s.brake : ℚ) / 100
      handBrake := ((s.handBrake % 256 : ℤ) : ℚ)
      horn := ((s.horn % 256 : ℤ) : ℚ) }

end CarRecordingFrame

/-! ## Profile B: CarRecording.ts (custom-car-recording, 32-byte frames) -/

/-- FixedVector3 from the custom-car-recording CarRecording.ts: three
JavaScript numbers with fixed-point compression helpers. -/
structure FixedVector3 where
  x : ℚ := 0
  y : ℚ := 0
  z : ℚ := 0
deriving DecidableEq

instance : Inhabited FixedVector3 := ⟨{}⟩

namespace FixedVector3

/-- FixedVector3.compress: component-wise Math.floor(value * scale).  Note
there is no clamping here, unlike Profile A's compressRotation /
compressSpeed. -/
def compress (v : FixedVector3) (scale : ℚ) : ℤ × ℤ × ℤ :=
  (jsFloor (v.x * scale), jsFloor (v.y * scale), jsFloor (v.z * scale))

/-- FixedVector3.decompress: component-wise division by the scale. -/
def decompress (values : ℤ × ℤ × ℤ) (scale : ℚ) : FixedVector3 :=
  ⟨(values.1 : ℚ) / scale, (values.2.1 : ℚ) / scale, (values.2.2 : ℚ) / scale⟩

end FixedVector3

/-- VehicleStateEachFrame from the custom-car-recording CarRecording.ts
(Profile B, 32-byte frames, mirroring CVehicleStateEachFrame).  The field
initializers of the TypeScript class are the default values here. -/
structure VehicleStateEachFrame where
  time : ℚ := 0
  velocity : FixedVector3 := {}
  right : FixedVector3 := {}
  top : FixedVector3 := {}
  steeringAngle : ℚ := 0
  gasPedal : ℚ := 0
  brakePedal : ℚ := 0
  handbrake : Bool := false
  position : FixedVector3 := {}
deriving DecidableEq

instance : Inhabited VehicleStateEachFrame := ⟨{}⟩

/-- The scalar contents of one serialized 32-byte Profile B frame. -/
structure StoredFrameB where
  time : ℤ
  velX : ℤ
  velY : ℤ
  velZ : ℤ
  rightX : ℤ
  rightY : ℤ
  rightZ : ℤ
  topX : ℤ
  topY : ℤ
  topZ : ℤ
  steering : ℤ
  gas : ℤ
  brake : ℤ
  handbrake : ℤ
  posX : ℚ
  posY : ℚ
  posZ : ℚ
deriving DecidableEq

namespace VehicleStateEachFrame

/-- VehicleStateEachFrame.toBuffer (Profile B): time with setUint32;
velocity components through FixedVector3.compress with scale 16383.5 and
setInt16 (wrap, no clamping); right / top components through compress with
scale 127 and setInt8; steering Math.floor(v * 20) with setInt8; gas and
brake Math.floor(v * 100) with setUint8; handbrake as a 0/1 byte; position
floats with setFloat32 (modelled by f32). -/
def toBuffer (f32 : ℚ → ℚ) (f : VehicleStateEachFrame) : StoredFrameB where
  time := toUintW 32 f.time
  velX := wrapInt 16 (f.velocity.compress 16383.5).1
  velY := wrapInt 16 (f.velocity.compress 16383.5).2.1
  velZ := wrapInt 16 (f.velocity.compress 16383.5).2.2
  rightX := wrapInt 8 (f.right.compress 127).1
  rightY := wrapInt 8 (f.right.compress 127).2.1
  rightZ := wrapInt 8 (f.right.compress 127).2.2
  topX := wrapInt 8 (f.top.compress 127).1
  topY := wrapInt 8 (f.top.compress 127).2.1
  topZ := wrapInt 8 (f.top.compress 127).2.2
  steering := wrapInt 8 (jsFloor (f.steeringAngle * 20))
  gas := jsFloor (f.gasPedal * 100) % 256
  brake := jsFloor (f.brakePedal * 100) % 256
  handbrake := if f.handbrake then 1 else 0
  posX := f32 f.position.x
  posY := f32 f.position.y
  posZ := f32 f.position.z

/-- VehicleStateEachFrame.fromBuffer (Profile B): time with getUint32;
velocity with getInt16 and FixedVector3.decompress at scale 16383.5; right /
top with getInt8 and decompress at scale 127; steering getInt8 / 20; gas and
brake getUint8 / 100; handbrake any non-zero byte; position floats with
getFloat32. -/
def fromBuffer (s : StoredFrameB) : VehicleStateEachFrame where
  time := (s.time : ℚ)
  velocity := FixedVector3.decompress (s.velX, s.velY, s.velZ) 16383.5
  right := FixedVector3.decompress (s.rightX, s.rightY, s.rightZ) 127
  top := FixedVector3.decompress (s.topX, s.topY, s.topZ) 127
  steeringAngle := (s.steering : ℚ) / 20
  gasPedal := (s.gas : ℚ) / 100
  brakePedal := (s.brake : ℚ) / 100
  handbrake := s.handbrake ≠ 0
  position := ⟨s.posX, s.posY, s.posZ⟩

end VehicleStateEachFrame

/-! ## CarRecording (custom-car-recording): the time-indexed frame store -/

namespace CarRecording

/-- CarRecording.getDuration: the last frame's time, 0 when empty. -/
def getDuration (frames : List VehicleStateEachFrame) : ℚ :=
  if frames.length = 0 then 0
  else (frames.getD (frames.length - 1) default).time

/-- The loop body of CarRecording.getFrameAtTime: the binary search over
the frame array, tracking the closest frame seen so far and its absolute
time difference.  left and right are kept as integers because the source
lets right become -1 (Math.floor((left + right) / 2) is integer floor
division).  fuel is the loop's termination measure (the interval width
right + 1 - left never grows and shrinks on every iteration), made an
explicit structural counter; getFrameAtTime supplies enough fuel for the
loop to run to completion, so the fuel-exhausted branch is never taken from
there. -/
def getFrameAtTimeAux (frames : List VehicleStateEachFrame) (time : ℚ) :
    ℕ → ℤ → ℤ → VehicleStateEachFrame → ℚ → VehicleStateEachFrame
  | 0, _, _, closest, _ => closest
  | fuel + 1, left, right, closest, minDiff =>
    if left ≤ right then
      let mid : ℤ := (left + right) / 2
      let frame := frames.getD mid.toNat default
      let diff := jsAbs (frame.time - time)
      let closest1 := if diff < minDiff then frame else closest
      let minDiff1 := if diff < minDiff then diff else minDiff
      if frame.time < time then
        getFrameAtTimeAux frames time fuel (mid + 1) right closest1 minDiff1
      else if time < frame.time then
        getFrameAtTimeAux frames time fuel left (mid - 1) closest1 minDiff1
      else frame
    else closest

/-- CarRecording.getFrameAtTime: undefined on an empty store, otherwise a
binary search by timestamp starting from closest = frames[0]. -/
def getFrameAtTime (frames : List VehicleStateEachFrame) (time : ℚ) :
    Option VehicleStateEachFrame :=
  if frames.length = 0 then none
  else some (getFrameAtTimeAux frames time frames.length 0
    ((frames.length : ℤ) - 1)
    (frames.getD 0 default) (jsAbs ((frames.getD 0 default).time - time)))

/-- The loop of CarRecording.getInterpolationFrames: scan consecutive pairs
from index 0 and return the first pair bracketing the query time, with
factor (time - current.time) / (next.time - current.time) when the pair's
time difference is positive and 0 otherwise. -/
def interpolationScan (time : ℚ) :
    List VehicleStateEachFrame →
      Option (VehicleStateEachFrame × VehicleStateEachFrame × ℚ)
  | current :: next :: rest =>
    if current.time ≤ time ∧ time ≤ next.time then
      some (current, next,
        if 0 < next.time - current.time then
          (time - current.time) / (next.time - current.time)
        else 0)
    else interpolationScan time (next :: rest)
  | _ => none

/-- CarRecording.getInterpolationFrames: undefined with fewer than two
frames; otherwise the first bracketing pair from the scan, and when the scan
finds none, the last two frames with factor 1.0. -/
def getInterpolationFrames (frames : List VehicleStateEachFrame) (time : ℚ) :
    Option (VehicleStateEachFrame × VehicleStateEachFrame × ℚ) :=
  if frames.length < 2 then none
  else
    match interpolationScan time frames with
    | some r => some r
    | none =>
      some (frames.getD (frames.length - 2) default,
        frames.getD (frames.length - 1) default, 1)

end CarRecording

/-! ## CarRecordingRecorder (Profile A recorder with the maxFrames ceiling) -/

/-- Default CarRecordingFrame, mirroring the TypeScript constructor default
arguments (identity-ish rotation, zero vectors, handBrake byte 16). -/
instance : Inhabited CarRecordingFrame :=
  ⟨⟨0, ⟨⟨1, 0, 0⟩, ⟨0, 0, 1⟩⟩, ⟨0, 0, 0⟩, ⟨0, 0, 0⟩, ⟨0, 0, 0⟩,
    ⟨0, 0, 0, 16, 0⟩⟩⟩

namespace CarRecordingRecorder

/-- The recorder fields read or written by CarRecordingRecorder.update.
The constructor default for maxFrames is 13650 (about 640KB at 48 bytes per
frame). -/
structure RecorderState where
  recording : List CarRecordingFrame := []
  isRecording : Bool := false
  startTime : ℚ := 0
  showInfo : Bool := false
  maxFrames : ℕ := 13650
deriving DecidableEq

/-- CarRecordingRecorder.update: when not recording, return true; when the
frame count has reached maxFrames, return false without touching the
recording or the isRecording flag (only an on-screen message is shown);
otherwise capture a frame (the externally read vehicle state, passed in as
captured) and append it. -/
def update (s : RecorderState) (captured : CarRecordingFrame) :
    RecorderState × Bool :=
  if s.isRecording = false then (s, true)
  else if s.maxFrames ≤ s.recording.length then (s, false)
  else ({ s with recording := s.recording ++ [captured] }, true)

end CarRecordingRecorder

/-! ## CarRecordingViewer (redux-car-recording[mem]): Profile A player -/

namespace CarRecordingViewerA

/-- The vehicle fields written by the redux CarRecordingViewer: the rotation
matrix right / up rows and position, the movement and turn speed vectors,
and the control fields (handBrake and horn are stored as bytes via
Memory.WriteU8). -/
structure VehStateA where
  rightX : ℚ
  rightY : ℚ
  rightZ : ℚ
  upX : ℚ
  upY : ℚ
  upZ : ℚ
  posX : ℚ
  posY : ℚ
  posZ : ℚ
  velX : ℚ
  velY : ℚ
  velZ : ℚ
  turnX : ℚ
  turnY : ℚ
  turnZ : ℚ
  steering : ℚ
  accel : ℚ
  brake : ℚ
  handBrake : ℤ
  horn : ℤ
deriving DecidableEq

/-- CarRecordingViewer.applyControls: steering, accelerator and brake floats
plus the handBrake and horn bytes (WriteU8 masks to one byte). -/
def applyControls (frame : CarRecordingFrame) (v : VehStateA) : VehStateA :=
  { v with
    steering := frame.controls.steeringAngle
    accel := frame.controls.accelerator
    brake := frame.controls.brake
    handBrake := toUintW 8 frame.controls.handBrake
    horn := toUintW 8 frame.controls.horn }

/-- CarRecordingViewer.applyFrameStatic: write the frame's rotation rows and
position, zero all six velocity components (for the paused / initial-frame
display), then apply the controls.  The forward row is skipped, as in the
source. -/
def applyFrameStatic (frame : CarRecordingFrame) (v : VehStateA) : VehStateA :=
  applyControls frame
    { v with
      rightX := frame.rotation.right.x
      rightY := frame.rotation.right.y
      rightZ := frame.rotation.right.z
      upX := frame.rotation.up.x
      upY := frame.rotation.up.y
      upZ := frame.rotation.up.z
      posX := frame.position.x
      posY := frame.position.y
      posZ := frame.position.z
      velX := 0
      velY := 0
      velZ := 0
      turnX := 0
      turnY := 0
      turnZ := 0 }

/-- CarRecordingViewer.applyFrameDynamic: as applyFrameStatic but with the
frame's movement and turn speeds instead of zeros. -/
def applyFrameDynamic (frame : CarRecordingFrame) (v : VehStateA) : VehStateA :=
  applyControls frame
    { v with
      rightX := frame.rotation.right.x
      rightY := frame.rotation.right.y
      rightZ := frame.rotation.right.z
      upX := frame.rotation.up.x
      upY := frame.rotation.up.y
      upZ := frame.rotation.up.z
      posX := frame.position.x
      posY := frame.position.y
      posZ := frame.position.z
      velX := frame.movementSpeed.x
      velY := frame.movementSpeed.y
      velZ := frame.movementSpeed.z
      turnX := frame.turnSpeed.x
      turnY := frame.turnSpeed.y
      turnZ := frame.turnSpeed.z }

/-- The while loop of CarRecordingViewer.findFrameForTime: advance the
current frame index while the next frame's timestamp is at most the elapsed
time. -/
def advanceFrameIndex (frames : List CarRecordingFrame) (time : ℚ)
    (idx : ℕ) : ℕ :=
  if idx + 1 < frames.length ∧
      (frames.getD (idx + 1) default).timestamp ≤ time then
    advanceFrameIndex frames time (idx + 1)
  else idx
termination_by frames.length - idx

/-- CarRecordingViewer.findFrameForTime: advance the index, then signal the
end of playback (the source returns -1, modelled as none) when the store is
empty, the index fell off the array, or the index is on the last frame and
the elapsed time passed its timestamp.  The first component is the mutated
currentFrameIndex. -/
def findFrameForTime (frames : List CarRecordingFrame) (time : ℚ)
    (idx0 : ℕ) : ℕ × Option ℕ :=
  if frames.length = 0 then (idx0, none)
  else
    let idx := advanceFrameIndex frames time idx0
    if frames.length ≤ idx then (idx, none)
    else if frames.length - 1 ≤ idx ∧
        (frames.getD (frames.length - 1) default).timestamp < time then
      (idx, none)
    else (idx, some idx)

/-- The redux CarRecordingViewer fields read or written by update. -/
structure StateA where
  recording : List CarRecordingFrame
  isPlaying : Bool := false
  isPaused : Bool := false
  startTime : ℚ := 0
  pauseTime : ℚ := 0
  currentFrameIndex : ℕ := 0
  loop : Bool := false
  setFrame : ℕ := 0
  veh : VehStateA
deriving DecidableEq

/-- CarRecordingViewer.start: restart playback from the beginning (now is
Date.now()). -/
def start (s : StateA) (now : ℚ) : StateA :=
  { s with
    isPlaying := true
    isPaused := false
    startTime := now
    currentFrameIndex := 0
    setFrame := 0 }

/-- CarRecordingViewer.stop. -/
def stop (s : StateA) : StateA :=
  { s with isPlaying := false, isPaused := false }

/-- CarRecordingViewer.update (now is Date.now()): returns the new state and
the current frame index, none standing for the source's -1 (playback ended).
When paused, the current frame (if it exists) is re-applied statically —
pose written, velocities zeroed — without advancing the clock. -/
def update (s : StateA) (now : ℚ) : StateA × Option ℕ :=
  if s.isPlaying = false then (s, none)
  else if s.isPaused then
    if s.currentFrameIndex < s.recording.length then
      let frame := s.recording.getD s.currentFrameIndex default
      ({ s with veh := applyFrameStatic frame s.veh }, some s.currentFrameIndex)
    else (s, some s.currentFrameIndex)
  else
    let elapsed := now - s.startTime
    let s1 :=
      if 0 < s.setFrame then
        if s.setFrame < s.recording.length then
          { s with
            startTime := now - (s.recording.getD s.setFrame default).timestamp
            currentFrameIndex := s.setFrame
            setFrame := 0 }
        else { s with setFrame := 0 }
      else s
    let r := findFrameForTime s1.recording elapsed s1.currentFrameIndex
    match r.2 with
    | none =>
      if s1.loop then (start { s1 with currentFrameIndex := r.1 } now, some 0)
      else (stop { s1 with currentFrameIndex := r.1 }, none)
    | some t =>
      let s2 := { s1 with currentFrameIndex := t }
      if t < s2.recording.length then
        let frame := s2.recording.getD t default
        if 0 < elapsed then
          ({ s2 with veh := applyFrameDynamic frame s2.veh }, some t)
        else ({ s2 with veh := applyFrameStatic frame s2.veh }, some t)
      else (s2, some t)

end CarRecordingViewerA

/-! ## CarRecordingViewer (part_010 source): Profile B interpolating player -/

namespace CarRecordingViewerB

/-- The vehicle fields written by the interpolating viewer: velocity, the
matrix rows (right, top and the derived forward), the pedal and steering
floats, the handbrake bit inside the vehicle-flags byte, and the physical
flags / recording id touched by stopPlayback.  The interpolated position is
computed by applyVehicleState but never written back, matching the source. -/
structure VehStateB where
  velX : ℚ
  velY : ℚ
  velZ : ℚ
  rightX : ℚ
  rightY : ℚ
  rightZ : ℚ
  topX : ℚ
  topY : ℚ
  topZ : ℚ
  fwdX : ℚ
  fwdY : ℚ
  fwdZ : ℚ
  steering : ℚ
  gas : ℚ
  brake : ℚ
  vehFlags : ℕ
  physFlags : ℕ
  recordingId : ℤ
deriving DecidableEq

/-- CarRecordingViewer.lerp. -/
def lerp (a b t : ℚ) : ℚ := a + (b - a) * t

/-- CarRecordingViewer.applyVehicleState: write the lerped velocity, the
lerped right and top rows, the forward row recomputed as their cross
product, the lerped steering / gas / brake, and the handbrake bit (bit 5 of
the vehicle-flags byte) snapped to prev when factor < 0.5 and to next
otherwise. -/
def applyVehicleState (veh : VehStateB)
    (prevFrame nextFrame : VehicleStateEachFrame) (factor : ℚ) : VehStateB :=
  let rightX := lerp prevFrame.right.x nextFrame.right.x factor
  let rightY := lerp prevFrame.right.y nextFrame.right.y factor
  let rightZ := lerp prevFrame.right.z nextFrame.right.z factor
  let topX := lerp prevFrame.top.x nextFrame.top.x factor
  let topY := lerp prevFrame.top.y nextFrame.top.y factor
  let topZ := lerp prevFrame.top.z nextFrame.top.z factor
  let handbrakeUsed :=
    if factor < 1/2 then prevFrame.handbrake else nextFrame.handbrake
  { veh with
    velX := lerp prevFrame.velocity.x nextFrame.velocity.x factor
    velY := lerp prevFrame.velocity.y nextFrame.velocity.y factor
    velZ := lerp prevFrame.velocity.z nextFrame.velocity.z factor
    rightX := rightX
    rightY := rightY
    rightZ := rightZ
    topX := topX
    topY := topY
    topZ := topZ
    fwdX := rightY * topZ - rightZ * topY
    fwdY := rightZ * topX - rightX * topZ
    fwdZ := rightX * topY - rightY * topX
    steering := lerp prevFrame.steeringAngle nextFrame.steeringAngle factor
    gas := lerp prevFrame.gasPedal nextFrame.gasPedal factor
    brake := lerp prevFrame.brakePedal nextFrame.brakePedal factor
    vehFlags :=
      if handbrakeUsed then veh.vehFlags ||| 32 else veh.vehFlags &&& 223 }

/-- The interpolating viewer fields read or written by update.  recording is
none while no file is loaded; hasVehicle models a non-null playbackVehicle
with a valid pointer. -/
structure StateB where
  recording : Option (List VehicleStateEachFrame) := none
  isPlaying : Bool := false
  isPaused : Bool := false
  hasVehicle : Bool := false
  currentTime : ℚ := 0
  playbackSpeed : ℚ := 1
  looped : Bool := false
  currentFrameIndex : ℕ := 0
  veh : VehStateB
deriving DecidableEq

/-- CarRecordingViewer.stopPlayback (part_010): restore the collision
flags (clear bit 2, set bit 3) and reset the autopilot recording id on the
vehicle, then clear the playback fields.  The driver ped teardown is outside
the model. -/
def stopPlayback (s : StateB) : StateB :=
  let veh1 :=
    if s.hasVehicle then
      { s.veh with
        physFlags := (s.veh.physFlags &&& 251) ||| 8
        recordingId := -1 }
    else s.veh
  { s with
    veh := veh1
    isPlaying := false
    isPaused := false
    hasVehicle := false
    currentTime := 0
    currentFrameIndex := 0 }

/-- CarRecordingViewer.update (part_010): return unchanged when not playing,
paused, without a vehicle or without a recording; stop when the vehicle is
dead; otherwise advance the clock by deltaTime * playbackSpeed, wrap to 0
(when looped) or stop at the end of the recording, and apply the
interpolated state from getInterpolationFrames. -/
def update (s : StateB) (deltaTime : ℚ) (vehicleDead : Bool) : StateB :=
  match s.recording with
  | none => s
  | some frames =>
    if s.isPlaying = false ∨ s.isPaused = true ∨ s.hasVehicle = false then s
    else if vehicleDead then stopPlayback s
    else
      let ct := s.currentTime + deltaTime * s.playbackSpeed
      if CarRecording.getDuration frames ≤ ct then
        if s.looped then
          let s1 := { s with currentTime := 0, currentFrameIndex := 0 }
          match CarRecording.getInterpolationFrames frames 0 with
          | none => s1
          | some r => { s1 with veh := applyVehicleState s1.veh r.1 r.2.1 r.2.2 }
        else stopPlayback { s with currentTime := ct }
      else
        let s1 := { s with currentTime := ct }
        match CarRecording.getInterpolationFrames frames ct with
        | none => s1
        | some r => { s1 with veh := applyVehicleState s1.veh r.1 r.2.1 r.2.2 }

end CarRecordingViewerB

/-! ## Allocator provenance events (MemoryLifecycle) -/

/-- Which allocator an allocation or release went through: the scripting
runtime's Memory.Allocate / Memory.Free (CLEO Redux heap) or the game's
CMemoryMgr::Malloc at 0x72F420 / CMemoryMgr::Free at 0x72F430. -/
inductive HeapApi
  | cleoRedux
  | cMemoryMgr
deriving DecidableEq

/-- Memory events produced by the native viewer / injector operations:
allocations, releases, and stores of a buffer pointer into one of the two
host-owned tables (the CVehicleRecording pPlaybackBuffer slot array or the
StreamingArray CPath m_pData field). -/
inductive MemEvent
  | alloc (api : HeapApi) (ptr : ℤ) (size : ℤ)
  | free (api : HeapApi) (ptr : ℤ)
  | writeSlotBufferPtr (slot : ℕ) (ptr : ℤ)
  | writeRegistryDataPtr (index : ℕ) (ptr : ℤ)
deriving DecidableEq

/-! ## NativeCarRecordingViewer: the 16-slot CVehicleRecording table -/

namespace NativeCarRecordingViewer

/-- TOTAL_VEHICLE_RECORDS = 16. -/
def TOTAL_VEHICLE_RECORDS : ℕ := 16

/-- One slot of the parallel CVehicleRecording arrays (pVehicleForPlayback,
pPlaybackBuffer, PlaybackIndex, PlaybackBufferSize, PlaybackRunningTime,
PlaybackSpeed, bPlaybackGoingOn, bPlaybackLooped, bPlaybackPaused,
bUseCarAI); the boolean arrays are bytes. -/
structure PlaybackSlot where
  vehicleForPlayback : ℤ := 0
  playbackBuffer : ℤ := 0
  playbackIndex : ℤ := 0
  playbackBufferSize : ℤ := 0
  playbackRunningTime : ℚ := 0
  playbackSpeed : ℚ := 0
  playbackGoingOn : ℕ := 0
  playbackLooped : ℕ := 0
  playbackPaused : ℕ := 0
  useCarAI : ℕ := 0
deriving DecidableEq

instance : Inhabited PlaybackSlot := ⟨{}⟩

/-- The 16-entry slot table plus the viewer object's own fields
(allocatedMemory, playbackSlot). -/
structure NVState where
  slots : List PlaybackSlot
  allocatedMemory : Option ℤ := none
  playbackSlot : ℤ := -1
deriving DecidableEq

/-- The loop of findInactivePlaybackSlot: first index whose
bPlaybackGoingOn byte reads 0, else -1. -/
def findInactivePlaybackSlotAux : ℕ → List PlaybackSlot → ℤ
  | _, [] => -1
  | i, s :: rest =>
    if s.playbackGoingOn = 0 then (i : ℤ)
    else findInactivePlaybackSlotAux (i + 1) rest

/-- NativeCarRecordingViewer.findInactivePlaybackSlot. -/
def findInactivePlaybackSlot (slots : List PlaybackSlot) : ℤ :=
  findInactivePlaybackSlotAux 0 slots

/-- NativeCarRecordingViewer.startPlayback.  allocReturn is the value
returned by Memory.Allocate (the CLEO Redux allocator).  On success the
source writes, at the claimed slot: the vehicle pointer, the buffer pointer
and its byte size, 900 into PlaybackIndex (the inline comment says 0), 0.0
elapsed, 1.0 speed, the byte 0 into bPlaybackGoingOn (the inline comment
says true), the looped and useCarAI request flags, and 0 into
bPlaybackPaused.  Copying the frame bytes into the allocated block and the
vehicle-struct autopilot / physics writes are outside the slot-table
model. -/
def startPlayback (st : NVState) (frameCount : ℕ)
    (allocReturn vehiclePtr : ℤ) (useCarAI looped : Bool) :
    NVState × Bool × List MemEvent :=
  let slot := findInactivePlaybackSlot st.slots
  if slot = -1 then ({ st with playbackSlot := -1 }, false, [])
  else
    let totalSize : ℤ := (frameCount : ℤ) * 32
    let st1 := { st with playbackSlot := slot, allocatedMemory := some allocReturn }
    if allocReturn = 0 then
      (st1, false, [MemEvent.alloc HeapApi.cleoRedux allocReturn totalSize])
    else
      let i := slot.toNat
      let old := st1.slots.getD i default
      let updated :=
        { old with
          vehicleForPlayback := vehiclePtr
          playbackBuffer := allocReturn
          playbackBufferSize := totalSize
          playbackIndex := 900
          playbackRunningTime := 0
          playbackSpeed := 1
          playbackGoingOn := 0
          playbackLooped := if looped then 1 else 0
          playbackPaused := 0
          useCarAI := if useCarAI then 1 else 0 }
      ({ st1 with slots := st1.slots.set i updated }, true,
        [MemEvent.alloc HeapApi.cleoRedux allocReturn totalSize,
          MemEvent.writeSlotBufferPtr i allocReturn])

/-- NativeCarRecordingViewer.stopPlayback: clear the slot's pointer, buffer,
size and bPlaybackGoingOn entries, free the allocated block through
Memory.Free (the CLEO Redux allocator), and reset the object's fields.  The
vehicle-struct restoration writes are outside the slot-table model. -/
def stopPlayback (st : NVState) : NVState × List MemEvent :=
  if st.playbackSlot = -1 then (st, [])
  else
    let i := st.playbackSlot.toNat
    let old := st.slots.getD i default
    let cleared :=
      { old with
        vehicleForPlayback := 0
        playbackBuffer := 0
        playbackBufferSize := 0
        playbackGoingOn := 0 }
    let st1 := { st with slots := st.slots.set i cleared }
    match st1.allocatedMemory with
    | some m =>
      ({ st1 with allocatedMemory := none, playbackSlot := -1 },
        [MemEvent.free HeapApi.cleoRedux m])
    | none => ({ st1 with playbackSlot := -1 }, [])

end NativeCarRecordingViewer

/-! ## NativeCarRecordingInjector: the 475-entry StreamingArray registry -/

namespace NativeCarRecordingInjector

/-- TOTAL_RRR_MODEL_IDS = 475. -/
def TOTAL_RRR_MODEL_IDS : ℕ := 475

/-- The static initialFileNumber = 900 (never reassigned). -/
def initialFileNumber : ℤ := 900

/-- One CPath entry of the StreamingArray: m_nNumber, m_pData, m_nSize,
m_nRefCount (the number is read with ReadU32 in findFreeStreamingSlot). -/
structure CPath where
  number : ℤ := 0
  data : ℤ := 0
  size : ℤ := 0
  refCount : ℤ := 0
deriving DecidableEq

instance : Inhabited CPath := ⟨{}⟩

/-- The registry plus NumPlayBackFiles and the injector object's fields. -/
structure InjState where
  streamingArray : List CPath
  numPlayBackFiles : ℤ := 0
  allocatedMemory : Option ℤ := none
  injectedFileNumber : Option ℤ := none
  streamingArrayIndex : ℤ := -1
deriving DecidableEq

/-- The loop of findFreeStreamingSlot: at each index, first return it when
the entry's number is in the injector's own range (at least
initialFileNumber = 900) with a null data pointer, then return it when the
entry's number is 0; both checks happen inside the same single pass, so an
untouched entry at a lower index wins over a reclaimable one further on. -/
def findFreeStreamingSlotAux : ℕ → List CPath → ℤ
  | _, [] => -1
  | i, e :: rest =>
    if (initialFileNumber ≤ e.number ∧ e.data = 0) ∨ e.number = 0 then (i : ℤ)
    else findFreeStreamingSlotAux (i + 1) rest

/-- NativeCarRecordingInjector.findFreeStreamingSlot. -/
def findFreeStreamingSlot (arr : List CPath) : ℤ :=
  findFreeStreamingSlotAux 0 arr

/-- The disjunction tested per entry by findFreeStreamingSlot's loop: the
entry is reclaimable (id at least 900 with a null data pointer) or entirely
untouched (id 0). -/
abbrev isFreeEntry (e : CPath) : Prop :=
  (initialFileNumber ≤ e.number ∧ e.data = 0) ∨ e.number = 0

/-- The two exceptions injectIntoGame can throw: all 475 StreamingArray
slots occupied, or CMemoryMgr::Malloc returning null. -/
inductive InjectError
  | noFreeRegistryEntry
  | allocFailed
deriving DecidableEq

/-- NativeCarRecordingInjector.injectIntoGame.  fileNumber stands for the
explicit argument (the findUnusedFileNumber default is not modelled) and
mallocReturn for the value returned by CMemoryMgr::Malloc(totalSize,
MEM_PATHS).  Errors carry the object state at the throw, whose field writes
(streamingArrayIndex, allocatedMemory) persist past the exception; the
registry itself is only written on the success path. -/
def injectIntoGame (st : InjState) (frameCount : ℕ)
    (fileNumber mallocReturn : ℤ) :
    Except (InjectError × InjState) (InjState × ℤ × List MemEvent) :=
  match st.injectedFileNumber with
  | some n => Except.ok (st, n, [])
  | none =>
    let idx := findFreeStreamingSlot st.streamingArray
    let st1 := { st with streamingArrayIndex := idx }
    if idx = -1 then Except.error (InjectError.noFreeRegistryEntry, st1)
    else
      let totalSize : ℤ := (frameCount : ℤ) * 32
      let st2 := { st1 with allocatedMemory := some mallocReturn }
      if mallocReturn = 0 then Except.error (InjectError.allocFailed, st2)
      else
        let i := idx.toNat
        let st3 :=
          { st2 with
            streamingArray :=
              st2.streamingArray.set i ⟨fileNumber, mallocReturn, totalSize, 0⟩
            numPlayBackFiles := st2.numPlayBackFiles + 1
            injectedFileNumber := some fileNumber }
        Except.ok (st3, fileNumber,
          [MemEvent.alloc HeapApi.cMemoryMgr mallocReturn totalSize,
            MemEvent.writeRegistryDataPtr i mallocReturn])

/-- NativeCarRecordingInjector.removeFromGame: a no-op when not injected;
otherwise free the block through CMemoryMgr::Free, clear the CPath entry,
decrement NumPlayBackFiles (floored at 0) and reset the object fields. -/
def removeFromGame (st : InjState) : InjState × List MemEvent :=
  if st.injectedFileNumber = none ∨ st.streamingArrayIndex = -1 then (st, [])
  else
    let freed :=
      match st.allocatedMemory with
      | some m =>
        ({ st with allocatedMemory := none },
          [MemEvent.free HeapApi.cMemoryMgr m])
      | none => (st, ([] : List MemEvent))
    let st1 := freed.1
    let i := st1.streamingArrayIndex.toNat
    let st2 :=
      { st1 with
        streamingArray := st1.streamingArray.set i ⟨0, 0, 0, 0⟩
        numPlayBackFiles := max 0 (st1.numPlayBackFiles - 1)
        injectedFileNumber := none
        streamingArrayIndex := -1 }
    (st2, freed.2)

end NativeCarRecordingInjector

/-! ## Representability predicates and test fixtures -/

/-- A scaled value fits the signed 16-bit range. -/
abbrev InI16 (x : ℚ) : Prop := -32768 ≤ x ∧ x ≤ 32767

/-- A scaled value fits the signed 8-bit range. -/
abbrev InI8 (x : ℚ) : Prop := -128 ≤ x ∧ x ≤ 127

/-- A Profile A frame is representable: every fixed-point field's scaled
value lies within its integer range (rotation components at scale 30000 and
both speed vectors at scale 10000, all stored as int16). -/
abbrev RepresentableA (f : CarRecordingFrame) : Prop :=
  InI16 (f.rotation.right.x * 30000) ∧ InI16 (f.rotation.right.y * 30000) ∧
  InI16 (f.rotation.right.z * 30000) ∧ InI16 (f.rotation.up.x * 30000) ∧
  InI16 (f.rotation.up.y * 30000) ∧ InI16 (f.rotation.up.z * 30000) ∧
  InI16 (f.movementSpeed.x * 10000) ∧ InI16 (f.movementSpeed.y * 10000) ∧
  InI16 (f.movementSpeed.z * 10000) ∧ InI16 (f.turnSpeed.x * 10000) ∧
  InI16 (f.turnSpeed.y * 10000) ∧ InI16 (f.turnSpeed.z * 10000)

/-- A Profile B frame is representable: velocity components at scale 16383.5
fit int16 and both orientation vectors at scale 127 fit int8. -/
abbrev RepresentableB (f : VehicleStateEachFrame) : Prop :=
  InI16 (f.velocity.x * 16383.5) ∧ InI16 (f.velocity.y * 16383.5) ∧
  InI16 (f.velocity.z * 16383.5) ∧
  InI8 (f.right.x * 127) ∧ InI8 (f.right.y * 127) ∧ InI8 (f.right.z * 127) ∧
  InI8 (f.top.x * 127) ∧ InI8 (f.top.y * 127) ∧ InI8 (f.top.z * 127)

namespace NativeCarRecordingViewer

/-- A fresh CVehicleRecording table: all 16 slots zeroed (every
bPlaybackGoingOn byte 0, so every slot is inactive). -/
def freshState : NVState :=
  { slots := List.replicate TOTAL_VEHICLE_RECORDS {} }

/-- Iterate startPlayback n times (a one-frame recording, Memory.Allocate
returning the non-null 1000, vehicle pointer 500, no car AI, looped) and
report whether every call returned true. -/
def startPlaybackAllSucceed (st : NVState) : ℕ → Bool
  | 0 => true
  | n + 1 =>
    let r := startPlayback st 1 1000 500 false true
    r.2.1 && startPlaybackAllSucceed r.1 n

end NativeCarRecordingViewer

namespace NativeCarRecordingInjector

/-- A StreamingArray entry occupied by a built-in carrec.img recording:
non-zero id below the injector's 900 range, live data pointer. -/
def occupiedEntry : CPath := ⟨850, 77, 32, 1⟩

/-- Registry whose first entry is entirely untouched (id 0) and whose second
is reclaimable (id 900, null data), the remaining 473 occupied. -/
def registryWithBoth : List CPath :=
  ⟨0, 0, 0, 0⟩ :: ⟨900, 0, 0, 0⟩ :: List.replicate 473 occupiedEntry

/-- A completely occupied 475-entry registry. -/
def fullRegistry : List CPath := List.replicate TOTAL_RRR_MODEL_IDS occupiedEntry

end NativeCarRecordingInjector

/-!
## Theorems

Helper lemmas about the DataView wrap and the JavaScript rounding
operations, then one theorem per claim (with witnesses and counterexamples
where applicable).
-/

/-- An integer already in the signed 8-bit range is unchanged by the int8
wrap. -/
theorem wrapInt8_eq_self (v : ℤ) (h1 : -128 ≤ v) (h2 : v ≤ 127) :
    wrapInt 8 v = v := by
  unfold wrapInt
  norm_num
  omega

/-- An integer already in the signed 16-bit range is unchanged by the int16
wrap. -/
theorem wrapInt16_eq_self (v : ℤ) (h1 : -32768 ≤ v) (h2 : v ≤ 32767) :
    wrapInt 16 v = v := by
  unfold wrapInt
  norm_num
  omega

/-- An integer already in the signed 32-bit range is unchanged by the int32
wrap. -/
theorem wrapInt32_eq_self (v : ℤ) (h1 : -(2 ^ 31) ≤ v) (h2 : v < 2 ^ 31) :
    wrapInt 32 v = v := by
  unfold wrapInt
  norm_num
  omega

/-- jsTrunc agrees with the integer on integer inputs. -/
theorem jsTrunc_intCast (n : ℤ) : jsTrunc (n : ℚ) = n := by
  unfold jsTrunc
  split
  · rw [← Int.cast_neg, Int.floor_intCast]; omega
  · rw [Int.floor_intCast]

/-- Math.round stays within half a unit of its argument. -/
theorem abs_jsRound_sub_le (q : ℚ) : |(jsRound q : ℚ) - q| ≤ 1 / 2 := by
  have h1 : ((jsRound q : ℤ) : ℚ) ≤ q + 1 / 2 := by
    unfold jsRound
    exact_mod_cast Int.floor_le (q + 1 / 2)
  have h2 : q + 1 / 2 < (jsRound q : ℚ) + 1 := by
    unfold jsRound
    exact_mod_cast Int.lt_floor_add_one (q + 1 / 2)
  rw [abs_le]
  constructor <;> linarith

/-- Math.floor stays within one unit (below) of its argument. -/
theorem abs_jsFloor_sub_le (q : ℚ) : |(jsFloor q : ℚ) - q| ≤ 1 := by
  have h1 : ((jsFloor q : ℤ) : ℚ) ≤ q := by
    unfold jsFloor
    exact_mod_cast Int.floor_le q
  have h2 : q < (jsFloor q : ℚ) + 1 := by
    unfold jsFloor
    exact_mod_cast Int.lt_floor_add_one q
  rw [abs_le]
  constructor <;> linarith

/-- When the scaled value fits int16, Profile A's clamped rounding is the
plain rounding, and it lies within the int16 range. -/
theorem jsRound_mem_i16 (x : ℚ) (h : InI16 x) :
    -32768 ≤ jsRound x ∧ jsRound x ≤ 32767 := by
  obtain ⟨h1, h2⟩ := h
  constructor
  · rw [jsRound, Int.le_floor]
    push_cast
    linarith
  · have : jsRound x < 32768 := by
      rw [jsRound, Int.floor_lt]
      push_cast
      linarith
    omega

/-- Likewise for int8 at Profile B's Math.floor. -/
theorem jsFloor_mem_range (x lo hi : ℚ) (hlo : lo ≤ x) (hhi : x ≤ hi)
    (nlo : ℤ) (nhi : ℤ) (hl : (nlo : ℚ) = lo) (hh : (nhi : ℚ) = hi) :
    nlo ≤ jsFloor x ∧ jsFloor x ≤ nhi := by
  constructor
  · rw [jsFloor, Int.le_floor, hl]
    exact hlo
  · rw [jsFloor]
    have : (⌊x⌋ : ℚ) ≤ (nhi : ℚ) := le_trans (Int.floor_le x) (by rw [hh]; exact hhi)
    exact_mod_cast this

/-- Division error of round-then-divide: within 1/scale of the original. -/
theorem abs_roundDiv_sub_le (s v : ℚ) (hs : 0 < s) :
    |(jsRound (v * s) : ℚ) / s - v| ≤ 1 / s := by
  have h := abs_jsRound_sub_le (v * s)
  have heq : (jsRound (v * s) : ℚ) / s - v = ((jsRound (v * s) : ℚ) - v * s) / s := by
    field_simp
    ring
  rw [heq, abs_div, abs_of_pos hs]
  rw [div_le_div_iff_of_pos_right hs]
  linarith

/-- Division error of floor-then-divide: within 1/scale of the original. -/
theorem abs_floorDiv_sub_le (s v : ℚ) (hs : 0 < s) :
    |(jsFloor (v * s) : ℚ) / s - v| ≤ 1 / s := by
  have h := abs_jsFloor_sub_le (v * s)
  have heq : (jsFloor (v * s) : ℚ) / s - v = ((jsFloor (v * s) : ℚ) - v * s) / s := by
    field_simp
    ring
  rw [heq, abs_div, abs_of_pos hs]
  rw [div_le_div_iff_of_pos_right hs]
  linarith

/-- C2 counterexample: in Profile B, encoding a velocity component of 3
(scaled value 49150.5, beyond the int16 maximum 32767) stores -16386: the
value wraps to a negative number instead of clamping to 32767, because
FixedVector3.compress has no clamp and setInt16 truncates. -/
theorem claim_C2_counterexample :
    (32767 : ℚ) < 3 * 16383.5 ∧
    (VehicleStateEachFrame.toBuffer id { velocity := ⟨3, 0, 0⟩ }).velX = -16386 ∧
    (VehicleStateEachFrame.toBuffer id { velocity := ⟨3, 0, 0⟩ }).velX < 0 := by
  have hvel : (VehicleStateEachFrame.toBuffer id { velocity := ⟨3, 0, 0⟩ }).velX
      = wrapInt 16 (jsFloor ((3 : ℚ) * 16383.5)) := rfl
  have hfloor : jsFloor ((3 : ℚ) * 16383.5) = 49150 := by
    unfold jsFloor
    norm_num
  have hwrap : wrapInt 16 (49150 : ℤ) = -16386 := by
    unfold wrapInt
    norm_num
  refine ⟨by norm_num, ?_, ?_⟩
  · rw [hvel, hfloor, hwrap]
  · rw [hvel, hfloor, hwrap]
    norm_num

/-- C2 (amended): Profile A's fixed-point compressions (rotation at scale
30000, movement / turn speed at scale 10000, both to int16) saturate to the
maximum or minimum representable integer when the scaled value is out of
range and never wrap (the int16 store is the identity on their output);
Profile B's compression does not clamp and wraps instead (see the
counterexample). -/
theorem claim_C2 (a b c d : ℚ)
    (ha : 32767 ≤ a * 30000) (hb : b * 30000 ≤ -32768)
    (hc : 32767 ≤ c * 10000) (hd : d * 10000 ≤ -32768) :
    CarRecordingFrame.compressRotation a = 32767 ∧
    CarRecordingFrame.compressRotation b = -32768 ∧
    CarRecordingFrame.compressSpeed c = 32767 ∧
    CarRecordingFrame.compressSpeed d = -32768 ∧
    ∀ v : ℚ,
      -32768 ≤ CarRecordingFrame.compressRotation v ∧
      CarRecordingFrame.compressRotation v ≤ 32767 ∧
      wrapInt 16 (CarRecordingFrame.compressRotation v) =
        CarRecordingFrame.compressRotation v ∧
      -32768 ≤ CarRecordingFrame.compressSpeed v ∧
      CarRecordingFrame.compressSpeed v ≤ 32767 ∧
      wrapInt 16 (CarRecordingFrame.compressSpeed v) =
        CarRecordingFrame.compressSpeed v := by
  have hra : 32767 ≤ jsRound (a * 30000) := by
    rw [jsRound, Int.le_floor]
    push_cast
    linarith
  have hrb : jsRound (b * 30000) ≤ -32768 := by
    have : jsRound (b * 30000) < -32767 := by
      rw [jsRound, Int.floor_lt]
      push_cast
      linarith
    omega
  have hrc : 32767 ≤ jsRound (c * 10000) := by
    rw [jsRound, Int.le_floor]
    push_cast
    linarith
  have hrd : jsRound (d * 10000) ≤ -32768 := by
    have : jsRound (d * 10000) < -32767 := by
      rw [jsRound, Int.floor_lt]
      push_cast
      linarith
    omega
  refine ⟨?_, ?_, ?_, ?_, ?_⟩
  · unfold CarRecordingFrame.compressRotation
    omega
  · unfold CarRecordingFrame.compressRotation
    omega
  · unfold CarRecordingFrame.compressSpeed
    omega
  · unfold CarRecordingFrame.compressSpeed
    omega
  · intro v
    have b1 : -32768 ≤ CarRecordingFrame.compressRotation v ∧
        CarRecordingFrame.compressRotation v ≤ 32767 := by
      unfold CarRecordingFrame.compressRotation
      omega
    have b2 : -32768 ≤ CarRecordingFrame.compressSpeed v ∧
        CarRecordingFrame.compressSpeed v ≤ 32767 := by
      unfold CarRecordingFrame.compressSpeed
      omega
    exact ⟨b1.1, b1.2, wrapInt16_eq_self _ b1.1 b1.2, b2.1, b2.2,
      wrapInt16_eq_self _ b2.1 b2.2⟩

/-- C2 witness: the amended theorem applied at concrete out-of-range
inputs 2, -2, 4, -4. -/
theorem claim_C2_witness :
    CarRecordingFrame.compressRotation 2 = 32767 ∧
    CarRecordingFrame.compressRotation (-2) = -32768 ∧
    CarRecordingFrame.compressSpeed 4 = 32767 ∧
    CarRecordingFrame.compressSpeed (-4) = -32768 ∧
    ∀ v : ℚ,
      -32768 ≤ CarRecordingFrame.compressRotation v ∧
      CarRecordingFrame.compressRotation v ≤ 32767 ∧
      wrapInt 16 (CarRecordingFrame.compressRotation v) =
        CarRecordingFrame.compressRotation v ∧
      -32768 ≤ CarRecordingFrame.compressSpeed v ∧
      CarRecordingFrame.compressSpeed v ≤ 32767 ∧
      wrapInt 16 (CarRecordingFrame.compressSpeed v) =
        CarRecordingFrame.compressSpeed v :=
  claim_C2 2 (-2) 4 (-4) (by norm_num) (by norm_num) (by norm_num) (by norm_num)

/-- Profile A rotation component round-trip error bound. -/
theorem rotA_roundtrip (v : ℚ) (h : InI16 (v * 30000)) :
    |CarRecordingFrame.decompressRotation
      (wrapInt 16 (CarRecordingFrame.compressRotation v)) - v| ≤ 1 / 30000 := by
  obtain ⟨hlo, hhi⟩ := jsRound_mem_i16 (v * 30000) h
  have hcomp : CarRecordingFrame.compressRotation v = jsRound (v * 30000) := by
    unfold CarRecordingFrame.compressRotation
    omega
  rw [hcomp, wrapInt16_eq_self _ hlo hhi]
  unfold CarRecordingFrame.decompressRotation
  exact abs_roundDiv_sub_le 30000 v (by norm_num)

/-- Profile A speed component round-trip error bound. -/
theorem speedA_roundtrip (v : ℚ) (h : InI16 (v * 10000)) :
    |CarRecordingFrame.decompressSpeed
      (wrapInt 16 (CarRecordingFrame.compressSpeed v)) - v| ≤ 1 / 10000 := by
  obtain ⟨hlo, hhi⟩ := jsRound_mem_i16 (v * 10000) h
  have hcomp : CarRecordingFrame.compressSpeed v = jsRound (v * 10000) := by
    unfold CarRecordingFrame.compressSpeed
    omega
  rw [hcomp, wrapInt16_eq_self _ hlo hhi]
  unfold CarRecordingFrame.decompressSpeed
  exact abs_roundDiv_sub_le 10000 v (by norm_num)

/-- Profile B velocity component round-trip error bound. -/
theorem velB_roundtrip (v : ℚ) (h : InI16 (v * 16383.5)) :
    |(wrapInt 16 (jsFloor (v * 16383.5)) : ℚ) / 16383.5 - v| ≤ 1 / 16383.5 := by
  obtain ⟨hlo, hhi⟩ := jsFloor_mem_range (v * 16383.5) (-32768) 32767 h.1 h.2
    (-32768) 32767 (by norm_num) (by norm_num)
  rw [wrapInt16_eq_self _ hlo hhi]
  exact abs_floorDiv_sub_le 16383.5 v (by norm_num)

/-- Profile B orientation component round-trip error bound. -/
theorem oriB_roundtrip (v : ℚ) (h : InI8 (v * 127)) :
    |(wrapInt 8 (jsFloor (v * 127)) : ℚ) / 127 - v| ≤ 1 / 127 := by
  obtain ⟨hlo, hhi⟩ := jsFloor_mem_range (v * 127) (-128) 127 h.1 h.2
    (-128) 127 (by norm_num) (by norm_num)
  rw [wrapInt8_eq_self _ hlo hhi]
  exact abs_floorDiv_sub_le 127 v (by norm_num)

/-- C3: for representable frames (fixed-point scaled values in range,
integer timestamps in the range of their stored width, binary32-exact
positions, i.e. f32 is the identity on them), decode(encode(f)) is within
1/30000 on Profile A rotation components and 1/10000 on both speed vectors,
within 1/16383.5 on Profile B velocity and 1/127 on Profile B orientation
components, and exact on the float position fields and the timestamps of
both profiles. -/
theorem claim_C3 (f32 : ℚ → ℚ) (fA : CarRecordingFrame)
    (fB : VehicleStateEachFrame)
    (hA : RepresentableA fA) (hB : RepresentableB fB)
    (nA : ℤ) (hAts : fA.timestamp = (nA : ℚ))
    (hA1 : -(2 ^ 31) ≤ nA) (hA2 : nA < 2 ^ 31)
    (nB : ℤ) (hBts : fB.time = (nB : ℚ))
    (hB1 : 0 ≤ nB) (hB2 : nB < 2 ^ 32)
    (hApx : f32 fA.position.x = fA.position.x)
    (hApy : f32 fA.position.y = fA.position.y)
    (hApz : f32 fA.position.z = fA.position.z)
    (hBpx : f32 fB.position.x = fB.position.x)
    (hBpy : f32 fB.position.y = fB.position.y)
    (hBpz : f32 fB.position.z = fB.position.z) :
    (|(CarRecordingFrame.fromBuffer (CarRecordingFrame.toBuffer f32 fA)).rotation.right.x -
        fA.rotation.right.x| ≤ 1 / 30000 ∧
      |(CarRecordingFrame.fromBuffer (CarRecordingFrame.toBuffer f32 fA)).rotation.right.y -
        fA.rotation.right.y| ≤ 1 / 30000 ∧
      |(CarRecordingFrame.fromBuffer (CarRecordingFrame.toBuffer f32 fA)).rotation.right.z -
        fA.rotation.right.z| ≤ 1 / 30000 ∧
      |(CarRecordingFrame.fromBuffer (CarRecordingFrame.toBuffer f32 fA)).rotation.up.x -
        fA.rotation.up.x| ≤ 1 / 30000 ∧
      |(CarRecordingFrame.fromBuffer (CarRecordingFrame.toBuffer f32 fA)).rotation.up.y -
        fA.rotation.up.y| ≤ 1 / 30000 ∧
      |(CarRecordingFrame.fromBuffer (CarRecordingFrame.toBuffer f32 fA)).rotation.up.z -
        fA.rotation.up.z| ≤ 1 / 30000 ∧
      |(CarRecordingFrame.fromBuffer (CarRecordingFrame.toBuffer f32 fA)).movementSpeed.x -
        fA.movementSpeed.x| ≤ 1 / 10000 ∧
      |(CarRecordingFrame.fromBuffer (CarRecordingFrame.toBuffer f32 fA)).movementSpeed.y -
        fA.movementSpeed.y| ≤ 1 / 10000 ∧
      |(CarRecordingFrame.fromBuffer (CarRecordingFrame.toBuffer f32 fA)).movementSpeed.z -
        fA.movementSpeed.z| ≤ 1 / 10000 ∧
      |(CarRecordingFrame.fromBuffer (CarRecordingFrame.toBuffer f32 fA)).turnSpeed.x -
        fA.turnSpeed.x| ≤ 1 / 10000 ∧
      |(CarRecordingFrame.fromBuffer (CarRecordingFrame.toBuffer f32 fA)).turnSpeed.y -
        fA.turnSpeed.y| ≤ 1 / 10000 ∧
      |(CarRecordingFrame.fromBuffer (CarRecordingFrame.toBuffer f32 fA)).turnSpeed.z -
        fA.turnSpeed.z| ≤ 1 / 10000 ∧
      (CarRecordingFrame.fromBuffer (CarRecordingFrame.toBuffer f32 fA)).position =
        fA.position ∧
      (CarRecordingFrame.fromBuffer (CarRecordingFrame.toBuffer f32 fA)).timestamp =
        fA.timestamp) ∧
    (|(VehicleStateEachFrame.fromBuffer (VehicleStateEachFrame.toBuffer f32 fB)).velocity.x -
        fB.velocity.x| ≤ 1 / 16383.5 ∧
      |(VehicleStateEachFrame.fromBuffer (VehicleStateEachFrame.toBuffer f32 fB)).velocity.y -
        fB.velocity.y| ≤ 1 / 16383.5 ∧
      |(VehicleStateEachFrame.fromBuffer (VehicleStateEachFrame.toBuffer f32 fB)).velocity.z -
        fB.velocity.z| ≤ 1 / 16383.5 ∧
      |(VehicleStateEachFrame.fromBuffer (VehicleStateEachFrame.toBuffer f32 fB)).right.x -
        fB.right.x| ≤ 1 / 127 ∧
      |(VehicleStateEachFrame.fromBuffer (VehicleStateEachFrame.toBuffer f32 fB)).right.y -
        fB.right.y| ≤ 1 / 127 ∧
      |(VehicleStateEachFrame.fromBuffer (VehicleStateEachFrame.toBuffer f32 fB)).right.z -
        fB.right.z| ≤ 1 / 127 ∧
      |(VehicleStateEachFrame.fromBuffer (VehicleStateEachFrame.toBuffer f32 fB)).top.x -
        fB.top.x| ≤ 1 / 127 ∧
      |(VehicleStateEachFrame.fromBuffer (VehicleStateEachFrame.toBuffer f32 fB)).top.y -
        fB.top.y| ≤ 1 / 127 ∧
      |(VehicleStateEachFrame.fromBuffer (VehicleStateEachFrame.toBuffer f32 fB)).top.z -
        fB.top.z| ≤ 1 / 127 ∧
      (VehicleStateEachFrame.fromBuffer (VehicleStateEachFrame.toBuffer f32 fB)).position =
        fB.position ∧
      (VehicleStateEachFrame.fromBuffer (VehicleStateEachFrame.toBuffer f32 fB)).time =
        fB.time) := by
  obtain ⟨r1, r2, r3, r4, r5, r6, s1, s2, s3, s4, s5, s6⟩ := hA
  obtain ⟨b1, b2, b3, o1, o2, o3, o4, o5, o6⟩ := hB
  constructor
  · refine ⟨rotA_roundtrip _ r1, rotA_roundtrip _ r2, rotA_roundtrip _ r3,
      rotA_roundtrip _ r4, rotA_roundtrip _ r5, rotA_roundtrip _ r6,
      speedA_roundtrip _ s1, speedA_roundtrip _ s2, speedA_roundtrip _ s3,
      speedA_roundtrip _ s4, speedA_roundtrip _ s5, speedA_roundtrip _ s6,
      ?_, ?_⟩
    · show (⟨f32 fA.position.x, f32 fA.position.y, f32 fA.position.z⟩ :
        Vector3) = fA.position
      rw [hApx, hApy, hApz]
    · show ((toIntW 32 fA.timestamp : ℤ) : ℚ) = fA.timestamp
      rw [hAts, toIntW, jsTrunc_intCast, wrapInt32_eq_self nA hA1 hA2]
  · refine ⟨velB_roundtrip _ b1, velB_roundtrip _ b2, velB_roundtrip _ b3,
      oriB_roundtrip _ o1, oriB_roundtrip _ o2, oriB_roundtrip _ o3,
      oriB_roundtrip _ o4, oriB_roundtrip _ o5, oriB_roundtrip _ o6,
      ?_, ?_⟩
    · show (⟨f32 fB.position.x, f32 fB.position.y, f32 fB.position.z⟩ :
        FixedVector3) = fB.position
      rw [hBpx, hBpy, hBpz]
    · show ((toUintW 32 fB.time : ℤ) : ℚ) = fB.time
      rw [hBts, toUintW, jsTrunc_intCast, Int.emod_eq_of_lt hB1 (by exact_mod_cast hB2)]

/-- Soundness of the bracketing scan: any returned triple is a consecutive
pair that brackets the query time, with the factor given by the source's
formula. -/
theorem interpolationScan_sound (t : ℚ) :
    ∀ (fs : List VehicleStateEachFrame) prev next fac,
      CarRecording.interpolationScan t fs = some (prev, next, fac) →
      prev.time ≤ t ∧ t ≤ next.time ∧
      fac = (if 0 < next.time - prev.time then
        (t - prev.time) / (next.time - prev.time) else 0) ∧
      ∃ i, i + 1 < fs.length ∧ fs.getD i default = prev ∧
        fs.getD (i + 1) default = next := by
  intro fs
  induction fs with
  | nil => intro prev next fac h; simp [CarRecording.interpolationScan] at h
  | cons c rest ih =>
    intro prev next fac h
    rcases rest with _ | ⟨nx, rest2⟩
    · simp [CarRecording.interpolationScan] at h
    · simp only [CarRecording.interpolationScan] at h
      by_cases hb : c.time ≤ t ∧ t ≤ nx.time
      · rw [if_pos hb] at h
        simp only [Option.some.injEq, Prod.mk.injEq] at h
        obtain ⟨rfl, rfl, rfl⟩ := h
        refine ⟨hb.1, hb.2, rfl, 0, ?_, rfl, rfl⟩
        simp only [List.length_cons]
        omega
      · rw [if_neg hb] at h
        obtain ⟨h1, h2, h3, i, hi, hgi, hgi1⟩ := ih prev next fac h
        refine ⟨h1, h2, h3, i + 1, ?_, ?_, ?_⟩
        · simp only [List.length_cons] at hi ⊢
          omega
        · simpa [List.getD_cons_succ] using hgi
        · simpa [List.getD_cons_succ] using hgi1

/-- Completeness of the bracketing scan on a sorted store: when the query
time lies between the first and last timestamps, the scan finds a
bracket. -/
theorem interpolationScan_isSome (t : ℚ) :
    ∀ (fs : List VehicleStateEachFrame),
      2 ≤ fs.length →
      List.Pairwise (fun a b => a.time ≤ b.time) fs →
      (fs.getD 0 default).time ≤ t →
      t ≤ (fs.getD (fs.length - 1) default).time →
      (CarRecording.interpolationScan t fs).isSome := by
  intro fs
  induction fs with
  | nil => intro h2; simp at h2
  | cons c rest ih =>
    intro h2 hsort hfirst hlast
    rcases rest with _ | ⟨nx, rest2⟩
    · simp at h2
    · simp only [CarRecording.interpolationScan]
      by_cases hb : c.time ≤ t ∧ t ≤ nx.time
      · rw [if_pos hb]; rfl
      · rw [if_neg hb]
        have hc : c.time ≤ t := by simpa using hfirst
        have hnx : nx.time < t := by
          rcases lt_or_ge t nx.time with hlt | hge
          · exact absurd ⟨hc, le_of_lt hlt⟩ hb
          · rcases eq_or_lt_of_le hge with heq | hlt
            · exact absurd ⟨hc, le_of_eq heq.symm⟩ hb
            · exact hlt
        rcases rest2 with _ | ⟨r3, rest3⟩
        · exfalso
          have : t ≤ nx.time := by simpa using hlast
          exact absurd this (not_le.mpr hnx)
        · apply ih
          · simp only [List.length_cons]; omega
          · exact hsort.tail
          · simpa using le_of_lt hnx
          · simpa [List.length_cons] using hlast

/-- The scan finds nothing when every frame's time is strictly below the
query time. -/
theorem interpolationScan_none_of_all_lt (t : ℚ) :
    ∀ (fs : List VehicleStateEachFrame),
      (∀ x ∈ fs, x.time < t) →
      CarRecording.interpolationScan t fs = none := by
  intro fs
  induction fs with
  | nil => intro _; rfl
  | cons c rest ih =>
    intro hall
    rcases rest with _ | ⟨nx, rest2⟩
    · rfl
    · simp only [CarRecording.interpolationScan]
      rw [if_neg]
      · exact ih fun x hx => hall x (List.mem_cons_of_mem c hx)
      · intro hb
        exact absurd hb.2 (not_le.mpr (hall nx (by simp)))

/-- The scan finds nothing when every frame's time is strictly above the
query time. -/
theorem interpolationScan_none_of_all_gt (t : ℚ) :
    ∀ (fs : List VehicleStateEachFrame),
      (∀ x ∈ fs, t < x.time) →
      CarRecording.interpolationScan t fs = none := by
  intro fs
  induction fs with
  | nil => intro _; rfl
  | cons c rest ih =>
    intro hall
    rcases rest with _ | ⟨nx, rest2⟩
    · rfl
    · simp only [CarRecording.interpolationScan]
      rw [if_neg]
      · exact ih fun x hx => hall x (List.mem_cons_of_mem c hx)
      · intro hb
        exact absurd hb.1 (not_le.mpr (hall c (by simp)))

/-- On a sorted store every frame's time is at most the last frame's. -/
theorem time_le_last_of_sorted :
    ∀ (fs : List VehicleStateEachFrame),
      List.Pairwise (fun a b => a.time ≤ b.time) fs →
      ∀ x ∈ fs, x.time ≤ (fs.getD (fs.length - 1) default).time := by
  intro fs
  induction fs with
  | nil => intro _ x hx; simp at hx
  | cons c rest ih =>
    intro hsort x hx
    rcases rest with _ | ⟨nx, rest2⟩
    · simp at hx
      simp [hx]
    · have hlast :
          ((c :: nx :: rest2).getD ((c :: nx :: rest2).length - 1) default) =
          ((nx :: rest2).getD ((nx :: rest2).length - 1) default) := by
        simp only [List.length_cons, Nat.add_sub_cancel]
        rw [List.getD_cons_succ]
      rw [hlast]
      rcases List.mem_cons.mp hx with rfl | hx2
      · have hmem : (nx :: rest2).getD ((nx :: rest2).length - 1) default ∈
            nx :: rest2 := by
          rw [List.getD_eq_getElem _ _ (by simp only [List.length_cons]; omega)]
          exact List.getElem_mem _
        exact (List.pairwise_cons.mp hsort).1 _ hmem
      · exact ih hsort.tail x hx2

/-- On a sorted store every frame's time is at least the first frame's. -/
theorem first_le_time_of_sorted :
    ∀ (fs : List VehicleStateEachFrame),
      List.Pairwise (fun a b => a.time ≤ b.time) fs →
      ∀ x ∈ fs, (fs.getD 0 default).time ≤ x.time := by
  intro fs
  induction fs with
  | nil => intro _ x hx; simp at hx
  | cons c rest _ =>
    intro hsort x hx
    rcases List.mem_cons.mp hx with rfl | hx2
    · simp
    · simpa using (List.pairwise_cons.mp hsort).1 x hx2

/-- C7 counterexample: on a recording with frames at t = 100 and t = 200, a
query at t = 0 (before the first frame) returns the last two frames with
factor 1.0, while the claimed formula clamp((t - prev.t) / (next.t -
prev.t), 0, 1) gives 0. -/
theorem claim_C7_counterexample :
    CarRecording.getInterpolationFrames
        ([{ time := 100 }, { time := 200 }] : List VehicleStateEachFrame) 0 =
      some ({ time := 100 }, { time := 200 }, 1) ∧
    max 0 (min 1 (((0 : ℚ) - 100) / (200 - 100))) = 0 ∧ (1 : ℚ) ≠ 0 := by
  refine ⟨?_, by norm_num, by norm_num⟩
  decide

/-- C7 (amended): on a store of at least two frames with non-decreasing
timestamps, getInterpolationFrames always returns some consecutive pair with
a factor in [0, 1]; for query times between the first and last timestamps
the returned pair brackets the query and the factor is (t - prev.t) /
(next.t - prev.t) when prev.t < next.t and 0 when the pair's timestamps tie
(which equals clamp of the claimed formula), with factor = 0 exactly at the
earlier timestamp and — when the bracket is non-degenerate — factor = 1
exactly at the later one; for query times strictly beyond the last
timestamp, and also (contrary to the original claim's formula) for query
times strictly before the first timestamp, it returns (secondToLast, last,
1.0). -/
theorem claim_C7 (frames : List VehicleStateEachFrame)
    (h2 : 2 ≤ frames.length)
    (hsort : List.Pairwise (fun a b => a.time ≤ b.time) frames) :
    (∀ t : ℚ, ∃ prev next fac,
        CarRecording.getInterpolationFrames frames t = some (prev, next, fac) ∧
        0 ≤ fac ∧ fac ≤ 1 ∧
        ∃ i, i + 1 < frames.length ∧ frames.getD i default = prev ∧
          frames.getD (i + 1) default = next) ∧
    (∀ (t : ℚ) prev next fac,
        (frames.getD 0 default).time ≤ t →
        t ≤ (frames.getD (frames.length - 1) default).time →
        CarRecording.getInterpolationFrames frames t = some (prev, next, fac) →
        prev.time ≤ t ∧ t ≤ next.time ∧
        fac = (if prev.time < next.time then
          (t - prev.time) / (next.time - prev.time) else 0) ∧
        (fac = 0 ↔ t = prev.time) ∧
        (prev.time < next.time → (fac = 1 ↔ t = next.time))) ∧
    (∀ t : ℚ, (frames.getD (frames.length - 1) default).time < t →
        CarRecording.getInterpolationFrames frames t =
          some (frames.getD (frames.length - 2) default,
            frames.getD (frames.length - 1) default, 1)) ∧
    (∀ t : ℚ, t < (frames.getD 0 default).time →
        CarRecording.getInterpolationFrames frames t =
          some (frames.getD (frames.length - 2) default,
            frames.getD (frames.length - 1) default, 1)) := by
  have hnotlt : ¬ frames.length < 2 := by omega
  refine ⟨?_, ?_, ?_, ?_⟩
  · intro t
    cases hscan : CarRecording.interpolationScan t frames with
    | none =>
      refine ⟨frames.getD (frames.length - 2) default,
        frames.getD (frames.length - 1) default, 1, ?_, by norm_num,
        by norm_num, frames.length - 2, by omega, rfl, ?_⟩
      · simp only [CarRecording.getInterpolationFrames]
        rw [if_neg hnotlt, hscan]
      · congr 1
        omega
    | some r =>
      obtain ⟨p, n, fac⟩ := r
      obtain ⟨hp, hn, hf, i, hi, hgi, hgi1⟩ :=
        interpolationScan_sound t frames p n fac hscan
      refine ⟨p, n, fac, ?_, ?_, ?_, i, hi, hgi, hgi1⟩
      · simp only [CarRecording.getInterpolationFrames]
        rw [if_neg hnotlt, hscan]
      · rw [hf]
        split
        · next hpos => exact div_nonneg (by linarith) (le_of_lt hpos)
        · exact le_refl 0
      · rw [hf]
        split
        · next hpos => rw [div_le_one hpos]; linarith
        · norm_num
  · intro t p n fac hfirst hlast hres
    have hs := interpolationScan_isSome t frames h2 hsort hfirst hlast
    obtain ⟨r, hr⟩ := Option.isSome_iff_exists.mp hs
    have hres2 : CarRecording.getInterpolationFrames frames t = some r := by
      simp only [CarRecording.getInterpolationFrames]
      rw [if_neg hnotlt, hr]
    rw [hres2] at hres
    obtain rfl : r = (p, n, fac) := Option.some.inj hres
    obtain ⟨hp, hn, hf, _, _, _, _⟩ := interpolationScan_sound t frames p n fac hr
    have hf2 : fac = (if p.time < n.time then
        (t - p.time) / (n.time - p.time) else 0) := by
      rw [hf]
      congr 1
      simp [sub_pos]
    refine ⟨hp, hn, hf2, ?_, ?_⟩
    · by_cases hlt : p.time < n.time
      · rw [hf2, if_pos hlt]
        rw [div_eq_zero_iff]
        constructor
        · intro h
          rcases h with h | h
          · linarith [sub_eq_zero.mp h]
          · linarith [sub_eq_zero.mp h]
        · intro h
          left
          rw [h]
          ring
      · have heq : t = p.time := by
          have : n.time ≤ p.time := le_of_not_lt hlt
          linarith
        rw [hf2, if_neg hlt]
        simp [heq]
    · intro hlt
      rw [hf2, if_pos hlt]
      have hne : n.time - p.time ≠ 0 := by linarith
      rw [div_eq_one_iff_eq hne]
      constructor
      · intro h
        linarith [sub_left_inj.mp h]
      · intro h
        rw [h]
  · intro t hlt
    have hnone : CarRecording.interpolationScan t frames = none := by
      apply interpolationScan_none_of_all_lt
      intro x hx
      exact lt_of_le_of_lt (time_le_last_of_sorted frames hsort x hx) hlt
    simp only [CarRecording.getInterpolationFrames]
    rw [if_neg hnotlt, hnone]
  · intro t hlt
    have hnone : CarRecording.interpolationScan t frames = none := by
      apply interpolationScan_none_of_all_gt
      intro x hx
      exact lt_of_lt_of_le hlt (first_le_time_of_sorted frames hsort x hx)
    simp only [CarRecording.getInterpolationFrames]
    rw [if_neg hnotlt, hnone]

/-- C7 witness: the amended theorem applied to a concrete sorted two-frame
store, at a query beyond the last timestamp. -/
theorem claim_C7_witness :
    CarRecording.getInterpolationFrames
        ([{ time := 0 }, { time := 100 }] : List VehicleStateEachFrame) 150 =
      some ({ time := 0 }, { time := 100 }, 1) := by
  have h := (claim_C7 ([{ time := 0 }, { time := 100 }] :
    List VehicleStateEachFrame) (by decide) (by decide)).2.2.1 150 (by decide)
  exact h

/-- Math.abs agrees with the absolute value. -/
theorem jsAbs_eq_abs (q : ℚ) : jsAbs q = |q| := by
  unfold jsAbs
  split
  · next h => rw [abs_of_neg h]
  · next h => rw [abs_of_nonneg (le_of_not_lt h)]

/-- On a sorted store the frame time is monotone in the index. -/
theorem sorted_time_getD_mono (fs : List VehicleStateEachFrame)
    (hsort : List.Pairwise (fun a b => a.time ≤ b.time) fs)
    (i j : ℕ) (hij : i ≤ j) (hj : j < fs.length) :
    (fs.getD i default).time ≤ (fs.getD j default).time := by
  rcases eq_or_lt_of_le hij with rfl | hlt
  · exact le_refl _
  · have hi : i < fs.length := lt_trans hlt hj
    rw [List.getD_eq_getElem _ _ hi, List.getD_eq_getElem _ _ hj]
    have := List.pairwise_iff_get.mp hsort ⟨i, hi⟩ ⟨j, hj⟩ hlt
    simpa using this

/-- When the probed frame's time is below the query, every frame at or
before the probed index is at least as far from the query. -/
theorem below_mid_bound (fs : List VehicleStateEachFrame)
    (hsort : List.Pairwise (fun a b => a.time ≤ b.time) fs)
    (time : ℚ) (mid : ℤ) (hmidlen : mid < (fs.length : ℤ))
    (hflt : (fs.getD mid.toNat default).time < time)
    (j : ℕ) (hj : (j : ℤ) ≤ mid) :
    |(fs.getD mid.toNat default).time - time| ≤
      |(fs.getD j default).time - time| := by
  have h1 : (fs.getD j default).time ≤ (fs.getD mid.toNat default).time :=
    sorted_time_getD_mono fs hsort j mid.toNat (by omega) (by omega)
  rw [abs_of_nonpos (by linarith), abs_of_nonpos (by linarith)]
  linarith

/-- When the probed frame's time is above the query, every frame at or after
the probed index is at least as far from the query. -/
theorem above_mid_bound (fs : List VehicleStateEachFrame)
    (hsort : List.Pairwise (fun a b => a.time ≤ b.time) fs)
    (time : ℚ) (mid : ℤ) (hmid0 : 0 ≤ mid)
    (hflt : time < (fs.getD mid.toNat default).time)
    (j : ℕ) (hj : mid ≤ (j : ℤ)) (hjlen : j < fs.length) :
    |(fs.getD mid.toNat default).time - time| ≤
      |(fs.getD j default).time - time| := by
  have h1 : (fs.getD mid.toNat default).time ≤ (fs.getD j default).time :=
    sorted_time_getD_mono fs hsort mid.toNat j (by omega) hjlen
  rw [abs_of_nonneg (by linarith), abs_of_nonneg (by linarith)]
  linarith

/-- Invariant-based specification of the binary-search loop: provided the
tracked closest frame is a frame of the store at distance minDiff and every
index outside [left, right] is at distance at least minDiff, the loop
returns a frame of the store at globally minimal distance from the query
time. -/
theorem getFrameAtTimeAux_spec (frames : List VehicleStateEachFrame)
    (time : ℚ)
    (hsort : List.Pairwise (fun a b => a.time ≤ b.time) frames)
    (fuel : ℕ) (left right : ℤ) (closest : VehicleStateEachFrame)
    (minDiff : ℚ)
    (hfuel : (right + 1 - left).toNat ≤ fuel)
    (hl : 0 ≤ left) (hr : right < (frames.length : ℤ))
    (hmd : minDiff = |closest.time - time|)
    (hcm : closest ∈ frames)
    (hout : ∀ j : ℕ, j < frames.length → ((j : ℤ) < left ∨ right < (j : ℤ)) →
      minDiff ≤ |(frames.getD j default).time - time|) :
    CarRecording.getFrameAtTimeAux frames time fuel left right closest minDiff ∈
      frames ∧
    ∀ j : ℕ, j < frames.length →
      |(CarRecording.getFrameAtTimeAux frames time fuel left right closest
          minDiff).time - time| ≤ |(frames.getD j default).time - time| := by
  match fuel with
  | 0 =>
    have hlr : ¬ left ≤ right := by omega
    refine ⟨hcm, ?_⟩
    intro j hj
    have hres : CarRecording.getFrameAtTimeAux frames time 0 left right closest
        minDiff = closest := rfl
    rw [hres, ← hmd]
    exact hout j hj (by omega)
  | fuel + 1 =>
  rw [CarRecording.getFrameAtTimeAux]
  split_ifs with hcond
  · dsimp only
    simp only [jsAbs_eq_abs]
    have h2 : (0 : ℤ) < 2 := by norm_num
    have hml : left ≤ (left + right) / 2 := by
      rw [Int.le_ediv_iff_mul_le h2]; omega
    have hmr : (left + right) / 2 ≤ right := by
      have : (left + right) / 2 ≤ (right + right) / 2 :=
        Int.ediv_le_ediv h2 (by omega)
      omega
    set mid : ℤ := (left + right) / 2 with hmiddef
    set frame := frames.getD mid.toNat default with hframedef
    set diff := |frame.time - time| with hdiffdef
    have hmid0 : 0 ≤ mid := le_trans hl hml
    have hmidlen : mid < (frames.length : ℤ) := lt_of_le_of_lt hmr hr
    have hframe_mem : frame ∈ frames := by
      rw [hframedef, List.getD_eq_getElem _ _ (by omega)]
      exact List.getElem_mem _
    by_cases hdm : diff < minDiff
    · simp only [if_pos hdm]
      by_cases hflt : frame.time < time
      · simp only [if_pos hflt]
        refine getFrameAtTimeAux_spec frames time hsort fuel (mid + 1) right
          frame diff (by omega) (by omega) hr hdiffdef hframe_mem ?_
        intro j hj hcase
        rcases hcase with hjl | hjr
        · by_cases hjleft : (j : ℤ) < left
          · exact le_trans (le_of_lt hdm) (hout j hj (Or.inl hjleft))
          · exact below_mid_bound frames hsort time mid hmidlen hflt j
              (by omega)
        · exact le_trans (le_of_lt hdm) (hout j hj (Or.inr hjr))
      · by_cases htlt : time < frame.time
        · simp only [if_neg hflt, if_pos htlt]
          refine getFrameAtTimeAux_spec frames time hsort fuel left (mid - 1)
            frame diff (by omega) hl (by omega) hdiffdef hframe_mem ?_
          intro j hj hcase
          rcases hcase with hjl | hjr
          · exact le_trans (le_of_lt hdm) (hout j hj (Or.inl hjl))
          · by_cases hjright : right < (j : ℤ)
            · exact le_trans (le_of_lt hdm) (hout j hj (Or.inr hjright))
            · exact above_mid_bound frames hsort time mid hmid0 htlt j
                (by omega) hj
        · simp only [if_neg hflt, if_neg htlt]
          have heq : frame.time = time :=
            le_antisymm (le_of_not_lt htlt) (le_of_not_lt hflt)
          refine ⟨hframe_mem, ?_⟩
          intro j hj
          rw [heq]
          simp

    · simp only [if_neg hdm]
      have hmdle : minDiff ≤ diff := le_of_not_lt hdm
      by_cases hflt : frame.time < time
      · simp only [if_pos hflt]
        refine getFrameAtTimeAux_spec frames time hsort fuel (mid + 1) right
          closest minDiff (by omega) (by omega) hr hmd hcm ?_
        intro j hj hcase
        rcases hcase with hjl | hjr
        · by_cases hjleft : (j : ℤ) < left
          · exact hout j hj (Or.inl hjleft)
          · exact le_trans hmdle
              (below_mid_bound frames hsort time mid hmidlen hflt j (by omega))
        · exact hout j hj (Or.inr hjr)
      · by_cases htlt : time < frame.time
        · simp only [if_neg hflt, if_pos htlt]
          refine getFrameAtTimeAux_spec frames time hsort fuel left (mid - 1)
            closest minDiff (by omega) hl (by omega) hmd hcm ?_
          intro j hj hcase
          rcases hcase with hjl | hjr
          · exact hout j hj (Or.inl hjl)
          · by_cases hjright : right < (j : ℤ)
            · exact hout j hj (Or.inr hjright)
            · exact le_trans hmdle
                (above_mid_bound frames hsort time mid hmid0 htlt j (by omega)
                  hj)
        · simp only [if_neg hflt, if_neg htlt]
          have heq : frame.time = time :=
            le_antisymm (le_of_not_lt htlt) (le_of_not_lt hflt)
          refine ⟨hframe_mem, ?_⟩
          intro j hj
          rw [heq]
          simp

  · refine ⟨hcm, ?_⟩
    intro j hj
    rw [← hmd]
    exact hout j hj (by omega)

/-- C8 counterexample: on the sorted store with times 0, 10, 20, 30, 40, the
query t = 15 is exactly equidistant from the frames at 10 and 20, yet
getFrameAtTime returns the frame at 20 — the later one — because the binary
search probes index 2 first and only replaces the tracked closest frame on a
strictly smaller difference. -/
theorem claim_C8_counterexample :
    CarRecording.getFrameAtTime
        ([{ time := 0 }, { time := 10 }, { time := 20 }, { time := 30 },
          { time := 40 }] : List VehicleStateEachFrame) 15 =
      some { time := 20 } ∧
    |(20 : ℚ) - 15| = |(10 : ℚ) - 15| ∧
    ({ time := 20 } : VehicleStateEachFrame) ≠ { time := 10 } := by
  refine ⟨?_, by norm_num, by decide⟩
  have ht0 : (0 : ℤ).toNat = 0 := by omega
  have ht1 : (1 : ℤ).toNat = 1 := by omega
  have ht2 : (2 : ℤ).toNat = 2 := by omega
  have ht3 : (3 : ℤ).toNat = 3 := by omega
  have ht4 : (4 : ℤ).toNat = 4 := by omega
  simp only [CarRecording.getFrameAtTime, List.length_cons, List.length_nil,
    Nat.reduceAdd, Nat.cast_ofNat, Int.reduceSub]
  simp only [CarRecording.getFrameAtTimeAux, jsAbs]
  simp only [Int.reduceAdd, Int.reduceDiv, Int.reduceSub, Int.reduceNeg,
    ht0, ht1, ht2, ht3, ht4]
  simp only [List.getD_cons_zero, List.getD_cons_succ]
  norm_num

/-- C8 (amended): on a non-empty store with non-decreasing timestamps,
getFrameAtTime returns a frame of the store whose absolute time difference
to the query is minimal over all frames.  The tie at an exactly equidistant
query is, however, not always broken towards the earlier frame (see the
counterexample): which of the two minimisers is returned depends on the
binary-search probe order. -/
theorem claim_C8 (frames : List VehicleStateEachFrame) (t : ℚ)
    (hne : frames ≠ [])
    (hsort : List.Pairwise (fun a b => a.time ≤ b.time) frames) :
    ∃ c, CarRecording.getFrameAtTime frames t = some c ∧ c ∈ frames ∧
      ∀ f ∈ frames, |c.time - t| ≤ |f.time - t| := by
  have hlen : 0 < frames.length := List.length_pos.mpr hne
  have hspec := getFrameAtTimeAux_spec frames t hsort frames.length 0
    ((frames.length : ℤ) - 1) (frames.getD 0 default)
    (jsAbs ((frames.getD 0 default).time - t)) (by omega) (le_refl 0)
    (by omega) (jsAbs_eq_abs _)
    (by rw [List.getD_eq_getElem _ _ hlen]; exact List.getElem_mem _)
    (by intro j hj hcase; omega)
  refine ⟨CarRecording.getFrameAtTimeAux frames t frames.length 0
    ((frames.length : ℤ) - 1)
    (frames.getD 0 default) (jsAbs ((frames.getD 0 default).time - t)), ?_,
    hspec.1, ?_⟩
  · simp only [CarRecording.getFrameAtTime]
    rw [if_neg (by omega)]
  · intro f hf
    obtain ⟨i, hi, rfl⟩ := List.mem_iff_getElem.mp hf
    have := hspec.2 i hi
    rwa [List.getD_eq_getElem _ _ hi] at this

/-- C8 witness: the amended theorem applied to a concrete sorted store. -/
theorem claim_C8_witness :
    ∃ c, CarRecording.getFrameAtTime
        ([{ time := 0 }, { time := 100 }] : List VehicleStateEachFrame) 30 =
      some c ∧
      c ∈ ([{ time := 0 }, { time := 100 }] : List VehicleStateEachFrame) ∧
      ∀ f ∈ ([{ time := 0 }, { time := 100 }] : List VehicleStateEachFrame),
        |c.time - 30| ≤ |f.time - 30| :=
  claim_C8 ([{ time := 0 }, { time := 100 }] : List VehicleStateEachFrame) 30
    (by decide) (by decide)

/-- C3 witness: the round-trip theorem applied to a concrete representable
frame of each profile (f32 is the identity, positions and timestamps
exact). -/
theorem claim_C3_witness :
    (CarRecordingFrame.fromBuffer (CarRecordingFrame.toBuffer id
        ⟨0, ⟨⟨1, 0, 0⟩, ⟨0, 0, 1⟩⟩, ⟨5, 6, 7⟩, ⟨0, 0, 0⟩, ⟨0, 0, 0⟩,
          ⟨0, 0, 0, 16, 0⟩⟩)).timestamp = (0 : ℚ) ∧
    (VehicleStateEachFrame.fromBuffer (VehicleStateEachFrame.toBuffer id
        ⟨0, ⟨0, 0, 0⟩, ⟨1, 0, 0⟩, ⟨0, 0, 1⟩, 0, 0, 0, false,
          ⟨5, 6, 7⟩⟩)).position = ⟨5, 6, 7⟩ := by
  have h := claim_C3 id
    ⟨0, ⟨⟨1, 0, 0⟩, ⟨0, 0, 1⟩⟩, ⟨5, 6, 7⟩, ⟨0, 0, 0⟩, ⟨0, 0, 0⟩,
      ⟨0, 0, 0, 16, 0⟩⟩
    ⟨0, ⟨0, 0, 0⟩, ⟨1, 0, 0⟩, ⟨0, 0, 1⟩, 0, 0, 0, false, ⟨5, 6, 7⟩⟩
    (by norm_num [RepresentableA, InI16]) (by norm_num [RepresentableB, InI16, InI8])
    0 (by norm_num) (by norm_num) (by norm_num)
    0 (by norm_num) (by norm_num) (by norm_num)
    rfl rfl rfl rfl rfl rfl
  obtain ⟨⟨_, _, _, _, _, _, _, _, _, _, _, _, _, hts⟩,
    ⟨_, _, _, _, _, _, _, _, _, hbpos, _⟩⟩ := h
  exact ⟨hts, hbpos⟩

/-- C5: with the recorder actively recording, the per-tick update at or
above the maxFrames ceiling (13650 by constructor default) returns false to
the caller while leaving the frame store and the isRecording flag untouched
(no truncation, no auto-stop); below the ceiling it appends the captured
frame and returns true. -/
theorem claim_C5 (s : CarRecordingRecorder.RecorderState)
    (captured : CarRecordingFrame) (hrec : s.isRecording = true) :
    (s.maxFrames ≤ s.recording.length →
      CarRecordingRecorder.update s captured = (s, false)) ∧
    (s.recording.length < s.maxFrames →
      CarRecordingRecorder.update s captured =
        ({ s with recording := s.recording ++ [captured] }, true)) := by
  constructor
  · intro hfull
    unfold CarRecordingRecorder.update
    rw [hrec]
    simp [hfull]
  · intro hroom
    unfold CarRecordingRecorder.update
    rw [hrec]
    simp [Nat.not_le.mpr hroom, not_lt_of_lt hroom]

/-- C5 witness: a full recorder (ceiling 1, one frame stored) reports false
and keeps its state; an empty one appends and reports true. -/
theorem claim_C5_witness :
    CarRecordingRecorder.update
        { recording := [default], isRecording := true, maxFrames := 1 }
        default =
      ({ recording := [default], isRecording := true, maxFrames := 1 }, false) ∧
    CarRecordingRecorder.update
        { recording := [], isRecording := true, maxFrames := 1 } default =
      ({ recording := [default], isRecording := true, maxFrames := 1 }, true) :=
  ⟨(claim_C5 { recording := [default], isRecording := true, maxFrames := 1 }
      default rfl).1 (by simp),
    (claim_C5 { recording := [], isRecording := true, maxFrames := 1 }
      default rfl).2 (by simp)⟩

/-- C10: NativeCarRecordingInjector.removeFromGame is idempotent.  When the
recording is not injected (injectedFileNumber null or streamingArrayIndex
-1, which holds in particular immediately after a previous removeFromGame)
the call returns the state unchanged with no memory events; and for every
state, running removeFromGame twice gives the same state as running it once,
the second run performing no memory operations. -/
theorem claim_C10 (st : NativeCarRecordingInjector.InjState) :
    (st.injectedFileNumber = none ∨ st.streamingArrayIndex = -1 →
      NativeCarRecordingInjector.removeFromGame st = (st, [])) ∧
    NativeCarRecordingInjector.removeFromGame
        (NativeCarRecordingInjector.removeFromGame st).1 =
      ((NativeCarRecordingInjector.removeFromGame st).1, []) := by
  have hguard : ∀ s : NativeCarRecordingInjector.InjState,
      s.injectedFileNumber = none ∨ s.streamingArrayIndex = -1 →
      NativeCarRecordingInjector.removeFromGame s = (s, []) := by
    intro s hs
    unfold NativeCarRecordingInjector.removeFromGame
    rw [if_pos hs]
  refine ⟨hguard st, ?_⟩
  by_cases h : st.injectedFileNumber = none ∨ st.streamingArrayIndex = -1
  · rw [hguard st h]
    exact hguard st h
  · apply hguard
    left
    unfold NativeCarRecordingInjector.removeFromGame
    rw [if_neg h]

/-- C10 witness: the idempotence theorem applied to a concrete non-injected
state over an empty registry. -/
theorem claim_C10_witness :
    NativeCarRecordingInjector.removeFromGame
        { streamingArray := [], numPlayBackFiles := 3 } =
      ({ streamingArray := [], numPlayBackFiles := 3 }, []) :=
  (claim_C10 { streamingArray := [], numPlayBackFiles := 3 }).1 (Or.inl rfl)

/-- The single-pass registry scan returns -1 when no entry passes the free
test (reclaimable or untouched). -/
theorem findFreeStreamingSlotAux_eq_neg_one
    (arr : List NativeCarRecordingInjector.CPath) (k : ℕ)
    (h : ∀ e ∈ arr, ¬ NativeCarRecordingInjector.isFreeEntry e) :
    NativeCarRecordingInjector.findFreeStreamingSlotAux k arr = -1 := by
  induction arr generalizing k with
  | nil => rfl
  | cons e rest ih =>
    rw [NativeCarRecordingInjector.findFreeStreamingSlotAux,
      if_neg (h e (List.mem_cons_self e rest))]
    exact ih (k + 1) fun x hx => h x (List.mem_cons_of_mem _ hx)

/-- The single-pass registry scan started at offset k returns k plus the
position of the first free entry: that entry passes the union test while
every earlier entry fails it. -/
theorem findFreeStreamingSlotAux_first_free
    (arr : List NativeCarRecordingInjector.CPath) (k : ℕ)
    (h : ∃ e ∈ arr, NativeCarRecordingInjector.isFreeEntry e) :
    ∃ j : ℕ, NativeCarRecordingInjector.findFreeStreamingSlotAux k arr =
        ((k + j : ℕ) : ℤ) ∧
      j < arr.length ∧
      NativeCarRecordingInjector.isFreeEntry (arr.getD j default) ∧
      ∀ l < j, ¬ NativeCarRecordingInjector.isFreeEntry (arr.getD l default) := by
  induction arr generalizing k with
  | nil =>
    rcases h with ⟨e, he, _⟩
    exact absurd he (List.not_mem_nil e)
  | cons e rest ih =>
    by_cases hfree : NativeCarRecordingInjector.isFreeEntry e
    · refine ⟨0, ?_, by simp, by simpa using hfree,
        fun l hl => absurd hl (Nat.not_lt_zero l)⟩
      rw [NativeCarRecordingInjector.findFreeStreamingSlotAux, if_pos hfree]
      simp
    · have hrest : ∃ x ∈ rest, NativeCarRecordingInjector.isFreeEntry x := by
        rcases h with ⟨x, hx, hxf⟩
        rcases List.mem_cons.mp hx with rfl | hx'
        · exact absurd hxf hfree
        · exact ⟨x, hx', hxf⟩
      rcases ih (k + 1) hrest with ⟨j, hj1, hj2, hj3, hj4⟩
      refine ⟨j + 1, ?_, by simpa using Nat.succ_lt_succ hj2, ?_, ?_⟩
      · rw [NativeCarRecordingInjector.findFreeStreamingSlotAux, if_neg hfree,
          hj1]
        push_cast
        ring
      · simpa [List.getD_cons_succ] using hj3
      · intro l hl
        cases l with
        | zero => simpa using hfree
        | succ m =>
          have hm := hj4 m (by omega)
          simpa [List.getD_cons_succ] using hm

/-- C9 counterexample: on a registry whose entry 0 is entirely untouched
(id 0) and whose entry 1 is reclaimable (id 900 with a null data pointer),
findFreeStreamingSlot returns 0 — the untouched entry — not the reclaimable
entry 1 the claim says is preferred: the scan is a single pass with no
preference between the two kinds. -/
theorem claim_C9_counterexample :
    NativeCarRecordingInjector.findFreeStreamingSlot
        NativeCarRecordingInjector.registryWithBoth = 0 ∧
    (NativeCarRecordingInjector.registryWithBoth.getD 1 default).number =
      NativeCarRecordingInjector.initialFileNumber ∧
    (NativeCarRecordingInjector.registryWithBoth.getD 1 default).data = 0 ∧
    (NativeCarRecordingInjector.registryWithBoth.getD 0 default).number = 0 ∧
    (0 : ℤ) ≠ 1 := by
  exact ⟨rfl, rfl, rfl, rfl, by decide⟩

/-- C9 (amended): findFreeStreamingSlot is a first-fit single pass over the
union test — any returned index i holds an entry that is reclaimable (id at
least 900, null data) or untouched (id 0), every earlier entry being
neither, with no preference of reclaimable over untouched — and when no
entry of either kind exists among the 475, it returns -1 and injectIntoGame
on a not-yet-injected state throws NoFreeRegistryEntry with the
StreamingArray unchanged. -/
theorem claim_C9 (arr : List NativeCarRecordingInjector.CPath)
    (hlen : arr.length = NativeCarRecordingInjector.TOTAL_RRR_MODEL_IDS) :
    (∀ i : ℕ, NativeCarRecordingInjector.findFreeStreamingSlot arr = (i : ℤ) →
      i < NativeCarRecordingInjector.TOTAL_RRR_MODEL_IDS ∧
      NativeCarRecordingInjector.isFreeEntry (arr.getD i default) ∧
      ∀ l < i, ¬ NativeCarRecordingInjector.isFreeEntry (arr.getD l default)) ∧
    ((∀ e ∈ arr, ¬ NativeCarRecordingInjector.isFreeEntry e) →
      NativeCarRecordingInjector.findFreeStreamingSlot arr = -1 ∧
      ∀ st : NativeCarRecordingInjector.InjState,
        ∀ frameCount : ℕ, ∀ fileNumber mallocReturn : ℤ,
        st.streamingArray = arr → st.injectedFileNumber = none →
        NativeCarRecordingInjector.injectIntoGame st frameCount fileNumber
            mallocReturn =
          Except.error
            (NativeCarRecordingInjector.InjectError.noFreeRegistryEntry,
              { st with streamingArrayIndex := -1 }) ∧
        ({ st with streamingArrayIndex := -1 }
            : NativeCarRecordingInjector.InjState).streamingArray =
          st.streamingArray) := by
  constructor
  · intro i hi
    by_cases hex : ∃ e ∈ arr, NativeCarRecordingInjector.isFreeEntry e
    · rcases findFreeStreamingSlotAux_first_free arr 0 hex with
        ⟨j, hj1, hj2, hj3, hj4⟩
      rw [NativeCarRecordingInjector.findFreeStreamingSlot, hj1] at hi
      have hij : i = j := by omega
      subst hij
      exact ⟨hlen ▸ hj2, hj3, hj4⟩
    · push_neg at hex
      have h1 := findFreeStreamingSlotAux_eq_neg_one arr 0 hex
      rw [NativeCarRecordingInjector.findFreeStreamingSlot, h1] at hi
      exact absurd hi (by omega)
  · intro hnone
    have h1 := findFreeStreamingSlotAux_eq_neg_one arr 0 hnone
    refine ⟨h1, ?_⟩
    intro st frameCount fileNumber mallocReturn hst hinj
    have hfind : NativeCarRecordingInjector.findFreeStreamingSlot
        st.streamingArray = -1 := by
      rw [hst]
      exact h1
    refine ⟨?_, rfl⟩
    simp only [NativeCarRecordingInjector.injectIntoGame, hinj, hfind,
      reduceIte]

/-- C9 witness: the amended theorem applied to a completely occupied
475-entry registry — the scan reports -1 and injectIntoGame throws, leaving
the registry unchanged. -/
theorem claim_C9_witness :
    NativeCarRecordingInjector.findFreeStreamingSlot
        NativeCarRecordingInjector.fullRegistry = -1 ∧
    NativeCarRecordingInjector.injectIntoGame
        { streamingArray := NativeCarRecordingInjector.fullRegistry }
        1 900 777 =
      Except.error
        (NativeCarRecordingInjector.InjectError.noFreeRegistryEntry,
          { streamingArray := NativeCarRecordingInjector.fullRegistry }) := by
  have hnone : ∀ e ∈ NativeCarRecordingInjector.fullRegistry,
      ¬ NativeCarRecordingInjector.isFreeEntry e := by
    intro e he
    rw [NativeCarRecordingInjector.fullRegistry] at he
    rw [List.eq_of_mem_replicate he]
    decide
  have h := (claim_C9 NativeCarRecordingInjector.fullRegistry
    (by simp [NativeCarRecordingInjector.fullRegistry])).2 hnone
  exact ⟨h.1,
    (h.2 { streamingArray := NativeCarRecordingInjector.fullRegistry }
      1 900 777 rfl rfl).1⟩

/-- C1 (code bug): startPlayback on a fresh 16-slot table reports success
for the first claim at slot 0, but writes 900 — not 0 — into the claimed
slot's PlaybackIndex (the inline comment says "PlaybackIndex[slot] = 0") and
writes the byte 0 into its bPlaybackGoingOn entry (the comment says
"bPlaybackGoingOn[slot] = true"), so the slot is never marked active: the
slot table still reports slot 0 inactive, a second call claims slot 0
again, and 17 consecutive claims all succeed instead of the 17th failing. -/
theorem claim_C1 :
    (NativeCarRecordingViewer.startPlayback NativeCarRecordingViewer.freshState
        1 1000 500 false true).2.1 = true ∧
    ((NativeCarRecordingViewer.startPlayback NativeCarRecordingViewer.freshState
        1 1000 500 false true).1.slots.getD 0 default).playbackIndex = 900 ∧
    ¬ ((NativeCarRecordingViewer.startPlayback
        NativeCarRecordingViewer.freshState
        1 1000 500 false true).1.slots.getD 0 default).playbackIndex = 0 ∧
    ((NativeCarRecordingViewer.startPlayback NativeCarRecordingViewer.freshState
        1 1000 500 false true).1.slots.getD 0 default).playbackGoingOn = 0 ∧
    NativeCarRecordingViewer.findInactivePlaybackSlot
      (NativeCarRecordingViewer.startPlayback NativeCarRecordingViewer.freshState
        1 1000 500 false true).1.slots = 0 ∧
    (NativeCarRecordingViewer.startPlayback
      (NativeCarRecordingViewer.startPlayback NativeCarRecordingViewer.freshState
        1 1000 500 false true).1 1 1000 500 false true).1.playbackSlot = 0 ∧
    NativeCarRecordingViewer.startPlaybackAllSucceed
      NativeCarRecordingViewer.freshState 17 = true := by
  exact ⟨rfl, rfl, by decide, rfl, rfl, rfl, rfl⟩

/-- C4 (code bug): the native viewer obtains the playback buffer from the
scripting runtime's allocator (Memory.Allocate), writes that pointer into
the host-owned pPlaybackBuffer slot table, and frees it with Memory.Free —
while the injector, on the same kind of host-owned table (the StreamingArray
data pointers), correctly uses CMemoryMgr::Malloc and CMemoryMgr::Free.  The
viewer therefore violates the claimed provenance invariant. -/
theorem claim_C4 :
    (NativeCarRecordingViewer.startPlayback NativeCarRecordingViewer.freshState
        1 1000 500 false true).2.2 =
      [MemEvent.alloc HeapApi.cleoRedux 1000 32,
        MemEvent.writeSlotBufferPtr 0 1000] ∧
    (NativeCarRecordingViewer.stopPlayback
        (NativeCarRecordingViewer.startPlayback
          NativeCarRecordingViewer.freshState 1 1000 500 false true).1).2 =
      [MemEvent.free HeapApi.cleoRedux 1000] ∧
    NativeCarRecordingInjector.injectIntoGame
        { streamingArray := List.replicate 475 {} } 1 900 777 =
      Except.ok
        ({ streamingArray :=
             (List.replicate 475
               ({} : NativeCarRecordingInjector.CPath)).set 0 ⟨900, 777, 32, 0⟩
           numPlayBackFiles := 1
           allocatedMemory := some 777
           injectedFileNumber := some 900
           streamingArrayIndex := 0 }, 900,
         [MemEvent.alloc HeapApi.cMemoryMgr 777 32,
           MemEvent.writeRegistryDataPtr 0 777]) ∧
    (NativeCarRecordingInjector.removeFromGame
        { streamingArray :=
            (List.replicate 475
              ({} : NativeCarRecordingInjector.CPath)).set 0 ⟨900, 777, 32, 0⟩
          numPlayBackFiles := 1
          allocatedMemory := some 777
          injectedFileNumber := some 900
          streamingArrayIndex := 0 }).2 =
      [MemEvent.free HeapApi.cMemoryMgr 777] ∧
    HeapApi.cleoRedux ≠ HeapApi.cMemoryMgr := by
  exact ⟨rfl, rfl, rfl, rfl, by decide⟩

/-- C6 (amended): in the redux (Profile A) CarRecordingViewer, every update
call in the paused state with an in-range current frame re-applies that
frame statically: the result is exactly the state with applyFrameStatic
folded into the vehicle, and applyFrameStatic writes all six velocity
components (movement and turn) as zero while writing the frame's position
and rotation rows — the vehicle freezes with no drift.  (The part_010
interpolating viewer instead returns with the vehicle untouched when
paused; see the counterexample.) -/
theorem claim_C6 (s : CarRecordingViewerA.StateA) (now : ℚ)
    (hp : s.isPlaying = true) (hq : s.isPaused = true)
    (hidx : s.currentFrameIndex < s.recording.length) :
    CarRecordingViewerA.update s now =
      ({ s with
          veh := CarRecordingViewerA.applyFrameStatic
            (s.recording.getD s.currentFrameIndex default) s.veh },
        some s.currentFrameIndex) ∧
    ∀ frame : CarRecordingFrame,
      (CarRecordingViewerA.applyFrameStatic frame s.veh).velX = 0 ∧
      (CarRecordingViewerA.applyFrameStatic frame s.veh).velY = 0 ∧
      (CarRecordingViewerA.applyFrameStatic frame s.veh).velZ = 0 ∧
      (CarRecordingViewerA.applyFrameStatic frame s.veh).turnX = 0 ∧
      (CarRecordingViewerA.applyFrameStatic frame s.veh).turnY = 0 ∧
      (CarRecordingViewerA.applyFrameStatic frame s.veh).turnZ = 0 ∧
      (CarRecordingViewerA.applyFrameStatic frame s.veh).posX =
        frame.position.x ∧
      (CarRecordingViewerA.applyFrameStatic frame s.veh).posY =
        frame.position.y ∧
      (CarRecordingViewerA.applyFrameStatic frame s.veh).posZ =
        frame.position.z ∧
      (CarRecordingViewerA.applyFrameStatic frame s.veh).rightX =
        frame.rotation.right.x ∧
      (CarRecordingViewerA.applyFrameStatic frame s.veh).upZ =
        frame.rotation.up.z := by
  constructor
  · have h1 : ¬ (s.isPlaying = false) := by simp [hp]
    rw [CarRecordingViewerA.update, if_neg h1, if_pos hq, if_pos hidx]
  · exact fun frame =>
      ⟨rfl, rfl, rfl, rfl, rfl, rfl, rfl, rfl, rfl, rfl, rfl⟩

/-- C6 witness: the amended theorem applied to a concretely paused state
whose vehicle carries a nonzero velocity (velX = 5) — the paused update
re-applies the frame and the re-applied vehicle has velX = 0. -/
theorem claim_C6_witness :
    CarRecordingViewerA.update
        { recording := [default]
          isPlaying := true
          isPaused := true
          veh := ⟨1, 0, 0, 0, 0, 1, 2, 3, 4, 5, 5, 5, 6, 6, 6, 0, 0, 0, 16, 0⟩ }
        999 =
      ({ recording := [default]
         isPlaying := true
         isPaused := true
         veh := CarRecordingViewerA.applyFrameStatic default
           ⟨1, 0, 0, 0, 0, 1, 2, 3, 4, 5, 5, 5, 6, 6, 6, 0, 0, 0, 16, 0⟩ },
        some 0) ∧
    (CarRecordingViewerA.applyFrameStatic default
        (⟨1, 0, 0, 0, 0, 1, 2, 3, 4, 5, 5, 5, 6, 6, 6, 0, 0, 0, 16, 0⟩ :
          CarRecordingViewerA.VehStateA)).velX = 0 ∧
    (⟨1, 0, 0, 0, 0, 1, 2, 3, 4, 5, 5, 5, 6, 6, 6, 0, 0, 0, 16, 0⟩ :
        CarRecordingViewerA.VehStateA).velX = 5 := by
  have h := claim_C6
    { recording := [default]
      isPlaying := true
      isPaused := true
      veh := ⟨1, 0, 0, 0, 0, 1, 2, 3, 4, 5, 5, 5, 6, 6, 6, 0, 0, 0, 16, 0⟩ }
    999 rfl rfl (by decide)
  exact ⟨h.1, (h.2 default).1, rfl⟩

/-- C6 counterexample: the part_010 interpolating viewer's update returns
the state unchanged whenever isPaused is true — the vehicle keeps its
nonzero velocity (velX = 5) and nothing is re-applied, contradicting the
claim for this player. -/
theorem claim_C6_counterexample :
    CarRecordingViewerB.update
        { recording := some [default, default]
          isPlaying := true
          isPaused := true
          hasVehicle := true
          veh := ⟨5, 0, 0, 1, 0, 0, 0, 0, 1, 0, 1, 0, 0, 0, 0, 32, 8, 0⟩ }
        16 false =
      { recording := some [default, default]
        isPlaying := true
        isPaused := true
        hasVehicle := true
        veh := ⟨5, 0, 0, 1, 0, 0, 0, 0, 1, 0, 1, 0, 0, 0, 0, 32, 8, 0⟩ } ∧
    (5 : ℚ) ≠ 0 := by
  exact ⟨rfl, by norm_num⟩

end CarRec
